import Mathlib

/-!
Verification development for the address_search repository.

The Python sources under src/ are shallowly embedded below: pure helper
functions become Lean functions over `String`/`List`, stateful loops become
explicit recursion, machine calls to external services (the inference
backend, the Exa search backend, page fetching) are modelled as oracle
functions supplied as explicit parameters, and code that can raise an
uncaught Python exception returns `Except Unit`/`Except`-typed results.

Python string primitives used by the source (str.strip, str.lower,
str.split, str.splitlines, "sep".join, slicing) are re-implemented over
`String.data` so that all definitions reduce inside the kernel.  The
`json` standard-library functions `json.loads` / `json.dumps`, which the
source relies on, are modelled by an executable recursive-descent parser
and serializer over an inductive `Json` type; the fragment exercised by
the source (objects, arrays, strings, integers, booleans, null) is
modelled exactly, while float repr formatting and `str()` of containers
(never exercised by any property proved here) are abstracted and flagged
in doc comments.
-/

namespace AddressSearch

/-! ## Python string primitives -/

/-- Whitespace characters removed by Python `str.strip()` (space, tab,
newline, carriage return, vertical tab, form feed). -/
def isPySpace (c : Char) : Bool :=
  c = ' ' || c = '\t' || c = '\n' || c = '\r' || c = Char.ofNat 11 || c = Char.ofNat 12

/-- Python `str.strip()`. -/
def pyStrip (s : String) : String :=
  ⟨((s.data.dropWhile isPySpace).reverse.dropWhile isPySpace).reverse⟩

/-- ASCII lower-casing of one character; Python `str.lower()` also folds
non-ASCII letters, which no string in this development contains. -/
def charLower (c : Char) : Char :=
  if 65 ≤ c.toNat ∧ c.toNat ≤ 90 then Char.ofNat (c.toNat + 32) else c

/-- Python `str.lower()` (ASCII fragment). -/
def pyLower (s : String) : String := ⟨s.data.map charLower⟩

/-- Python `s[:n]` for strings (slices by code point, as Python does). -/
def strTake (s : String) (n : Nat) : String := ⟨s.data.take n⟩

/-- `"sep".join(parts)`. -/
def joinWith (sep : String) : List String → String
  | [] => ""
  | [x] => x
  | x :: xs => x ++ sep ++ joinWith sep xs

/-- Auxiliary for `pySplitChar`. -/
def splitOnCharAux (c : Char) : List Char → List Char → List String
  | [], acc => [⟨acc.reverse⟩]
  | x :: xs, acc =>
      if x = c then ⟨acc.reverse⟩ :: splitOnCharAux c xs []
      else splitOnCharAux c xs (x :: acc)

/-- Python `s.split(c)` for a one-character separator; always non-empty. -/
def pySplitChar (s : String) (c : Char) : List String := splitOnCharAux c s.data []

/-- Python `str.splitlines()` restricted to `\n` line endings (the only
line ending produced by the source's own strings). -/
def pySplitlines (s : String) : List String :=
  if s.data = [] then []
  else
    let parts := pySplitChar s '\n'
    match parts.getLast? with
    | some "" => parts.dropLast
    | _ => parts

/-- Python `s.startswith(p)`. -/
def strStartsWith (s p : String) : Bool := p.data.isPrefixOf s.data

/-- Auxiliary for `strContains`: does `needle` occur in `hay`? -/
def containsSub (needle : List Char) : List Char → Bool
  | [] => needle.isEmpty
  | c :: rest => needle.isPrefixOf (c :: rest) || containsSub needle rest

/-- Python `needle in hay` substring containment. -/
def strContains (hay needle : String) : Bool := containsSub needle.data hay.data

/-- The opening brace character, U+007B. -/
def braceOpen : Char := Char.ofNat 123

/-- The closing brace character, U+007D. -/
def braceClose : Char := Char.ofNat 125

/-! ## A model of Python `json` values

`Json.num` keeps the parsed numeric value exactly as
`mantissa * 10 ^ exp10` (unnormalized, so that everything reduces inside
the kernel), together with a flag recording whether Python would have
produced a `float` (a fraction or exponent part was present) rather than
an `int`; for an `int` the exponent is always zero. -/

inductive Json where
  | null : Json
  | bool (b : Bool) : Json
  | num (isFloat : Bool) (mantissa : Int) (exp10 : Int) : Json
  | str (s : String) : Json
  | arr (elems : List Json) : Json
  | obj (members : List (String × Json)) : Json
deriving Repr

/-- Python truthiness of a decoded JSON value (`if parsed:`). -/
def Json.truthy : Json → Bool
  | .null => false
  | .bool b => b
  | .num _ m _ => decide (m ≠ 0)
  | .str s => decide (s ≠ "")
  | .arr elems => !elems.isEmpty
  | .obj members => !members.isEmpty

/-- `dict.get k`: Python keeps the LAST of duplicate keys from `json.loads`,
so lookup prefers the last binding. -/
def objGet? (members : List (String × Json)) (k : String) : Option Json :=
  match members with
  | [] => none
  | (k0, v) :: rest =>
      match objGet? rest k with
      | some v2 => some v2
      | none => if k0 = k then some v else none

/-- `dict.get k default`. -/
def objGetD (members : List (String × Json)) (k : String) (d : Json) : Json :=
  (objGet? members k).getD d

/-- `k in dict`. -/
def objHas (members : List (String × Json)) (k : String) : Bool :=
  (objGet? members k).isSome

/-- Python `str()` of a decoded JSON value.  The string, boolean, null and
integer cases are exact; `str()` of floats and containers is abstracted
(no property proved in this file ever applies `str()` to those). -/
def pyStr : Json → String
  | .null => "None"
  | .bool true => "True"
  | .bool false => "False"
  | .str s => s
  | .num false m _ => toString m
  | .num true m e => toString m ++ "e" ++ toString e
  | .arr _ => "<list>"
  | .obj _ => "<dict>"

/-! ## `json.loads` -/

/-- JSON whitespace. -/
def isJsonWs (c : Char) : Bool := c = ' ' || c = '\t' || c = '\n' || c = '\r'

/-- Skip JSON whitespace. -/
def skipWs : List Char → List Char
  | [] => []
  | c :: cs => if isJsonWs c then skipWs cs else c :: cs

/-- Value of one hex digit. -/
def hexVal (c : Char) : Option Nat :=
  if 48 ≤ c.toNat ∧ c.toNat ≤ 57 then some (c.toNat - 48)
  else if 97 ≤ c.toNat ∧ c.toNat ≤ 102 then some (c.toNat - 87)
  else if 65 ≤ c.toNat ∧ c.toNat ≤ 70 then some (c.toNat - 55)
  else none

/-- Parse exactly four hex digits. -/
def parseHex4 : List Char → Option (Nat × List Char)
  | a :: b :: c :: d :: rest => do
      let va ← hexVal a
      let vb ← hexVal b
      let vc ← hexVal c
      let vd ← hexVal d
      pure (va * 4096 + vb * 256 + vc * 16 + vd, rest)
  | _ => none

/-- Parse the body of a JSON string (after the opening quote) up to and
including the closing quote, decoding escapes.  Surrogate pairs in `\u`
escapes are combined; a lone surrogate (which CPython tolerates by
producing a lone-surrogate `str`, a value no claim exercises and which
`Char` cannot represent) is rejected. -/
def parseStringBody : Nat → List Char → Option (List Char × List Char)
  | 0, _ => none
  | _, [] => none
  | fuel + 1, c :: cs =>
      if c = '"' then some ([], cs)
      else if c = '\\' then
        match cs with
        | [] => none
        | e :: cs2 =>
            let simple : Option Char :=
              if e = '"' then some '"'
              else if e = '\\' then some '\\'
              else if e = '/' then some '/'
              else if e = 'b' then some (Char.ofNat 8)
              else if e = 'f' then some (Char.ofNat 12)
              else if e = 'n' then some '\n'
              else if e = 'r' then some '\r'
              else if e = 't' then some '\t'
              else none
            match simple with
            | some d =>
                match parseStringBody fuel cs2 with
                | some (body, rest) => some (d :: body, rest)
                | none => none
            | none =>
                if e = 'u' then
                  match parseHex4 cs2 with
                  | none => none
                  | some (n, cs3) =>
                      if 0xD800 ≤ n ∧ n ≤ 0xDBFF then
                        match cs3 with
                        | u :: v :: cs4 =>
                            if u = '\\' ∧ v = 'u' then
                              match parseHex4 cs4 with
                              | some (m, cs5) =>
                                  if 0xDC00 ≤ m ∧ m ≤ 0xDFFF then
                                    let code := 0x10000 + (n - 0xD800) * 0x400 + (m - 0xDC00)
                                    match parseStringBody fuel cs5 with
                                    | some (body, rest) => some (Char.ofNat code :: body, rest)
                                    | none => none
                                  else none
                              | none => none
                            else none
                        | _ => none
                      else if 0xDC00 ≤ n ∧ n ≤ 0xDFFF then none
                      else
                        match parseStringBody fuel cs3 with
                        | some (body, rest) => some (Char.ofNat n :: body, rest)
                        | none => none
                else none
      else if c.toNat < 32 then none
      else
        match parseStringBody fuel cs with
        | some (body, rest) => some (c :: body, rest)
        | none => none

/-- Digits at the front of the input. -/
def spanDigits : List Char → List Char × List Char
  | [] => ([], [])
  | c :: cs =>
      if c.isDigit then
        let (ds, rest) := spanDigits cs
        (c :: ds, rest)
      else ([], c :: cs)

/-- Numeric value of a digit list. -/
def digitsToNat : List Char → Nat → Nat
  | [], acc => acc
  | c :: cs, acc => digitsToNat cs (acc * 10 + (c.toNat - 48))

/-- Parse a JSON number following the strict JSON grammar
(`-? (0 | [1-9][0-9]*) (. [0-9]+)? ([eE][+-]?[0-9]+)?`). -/
def parseNumber (cs : List Char) : Option (Json × List Char) :=
  let (neg, cs1) :=
    match cs with
    | '-' :: rest => (true, rest)
    | _ => (false, cs)
  match cs1 with
  | [] => none
  | c :: rest =>
      if ¬ c.isDigit then none
      else
        let (intDigits, cs2) :=
          if c = '0' then ([c], rest)
          else
            let (ds, r) := spanDigits rest
            (c :: ds, r)
        let (fracDigits, isFrac, cs3) :=
          match cs2 with
          | '.' :: r =>
              let (ds, r2) := spanDigits r
              (ds, true, r2)
          | _ => ([], false, cs2)
        if isFrac ∧ fracDigits = [] then none
        else
          let (expVal, isExp, ok, cs5) :=
            match cs3 with
            | e :: r =>
                if e = 'e' ∨ e = 'E' then
                  let (esign, r2) :=
                    match r with
                    | '+' :: r3 => ((1 : Int), r3)
                    | '-' :: r3 => ((-1 : Int), r3)
                    | _ => ((1 : Int), r)
                  let (eds, r4) := spanDigits r2
                  if eds = [] then ((0 : Int), true, false, r4)
                  else (esign * (digitsToNat eds 0 : Int), true, true, r4)
                else ((0 : Int), false, true, cs3)
            | [] => ((0 : Int), false, true, cs3)
          if ¬ ok then none
          else
            let mantNat : Nat := digitsToNat (intDigits ++ fracDigits) 0
            let mantissa : Int := if neg then -(mantNat : Int) else (mantNat : Int)
            let exp10 : Int := expVal - (fracDigits.length : Int)
            some (Json.num (isFrac || isExp) mantissa exp10, cs5)

/-- Match a literal character sequence. -/
def stripLit : List Char → List Char → Option (List Char)
  | [], cs => some cs
  | _ :: _, [] => none
  | p :: ps, c :: cs => if c = p then stripLit ps cs else none

mutual

/-- Recursive-descent parser for one JSON value (fuel-indexed and
fuel-structural so that it reduces inside the kernel; callers supply
fuel exceeding the input length, which always suffices because every
recursive call first consumes at least one input character). -/
def parseValue : Nat → List Char → Option (Json × List Char)
  | 0, _ => none
  | fuel + 1, cs =>
      match cs with
      | [] => none
      | c :: rest =>
          if c = braceOpen then
            match skipWs rest with
            | [] => none
            | d :: rest2 =>
                if d = braceClose then some (Json.obj [], rest2)
                else parseMembers fuel (d :: rest2)
          else if c = '[' then
            match skipWs rest with
            | [] => none
            | d :: rest2 =>
                if d = ']' then some (Json.arr [], rest2)
                else parseElems fuel (d :: rest2)
          else if c = '"' then
            match parseStringBody (fuel + 1) rest with
            | some (body, r) => some (Json.str ⟨body⟩, r)
            | none => none
          else if c = 't' then
            match stripLit ['r', 'u', 'e'] rest with
            | some r => some (Json.bool true, r)
            | none => none
          else if c = 'f' then
            match stripLit ['a', 'l', 's', 'e'] rest with
            | some r => some (Json.bool false, r)
            | none => none
          else if c = 'n' then
            match stripLit ['u', 'l', 'l'] rest with
            | some r => some (Json.null, r)
            | none => none
          else if c = '-' ∨ c.isDigit then parseNumber cs
          else none

/-- One or more `"key": value` members, ending at the closing brace. -/
def parseMembers : Nat → List Char → Option (Json × List Char)
  | 0, _ => none
  | fuel + 1, cs =>
      match cs with
      | c :: rest =>
          if c = '"' then
            match parseStringBody fuel rest with
            | some (keyChars, cs2) =>
                match skipWs cs2 with
                | ':' :: cs3 =>
                    match parseValue fuel (skipWs cs3) with
                    | some (v, cs4) =>
                        match skipWs cs4 with
                        | ',' :: cs5 =>
                            match parseMembers fuel (skipWs cs5) with
                            | some (Json.obj kvs, r) =>
                                some (Json.obj ((⟨keyChars⟩, v) :: kvs), r)
                            | _ => none
                        | d :: cs5 =>
                            if d = braceClose then some (Json.obj [(⟨keyChars⟩, v)], cs5)
                            else none
                        | [] => none
                    | none => none
                | _ => none
            | none => none
          else none
      | [] => none

/-- One or more array elements, ending at the closing bracket. -/
def parseElems : Nat → List Char → Option (Json × List Char)
  | 0, _ => none
  | fuel + 1, cs =>
      match parseValue fuel cs with
      | some (v, cs2) =>
          match skipWs cs2 with
          | ',' :: cs3 =>
              match parseElems fuel (skipWs cs3) with
              | some (Json.arr vs, r) => some (Json.arr (v :: vs), r)
              | _ => none
          | ']' :: cs3 => some (Json.arr [v], cs3)
          | _ => none
      | none => none

end

/-- Python `json.loads`: parse one value surrounded by optional whitespace;
anything else (including trailing data) raises `JSONDecodeError`, modelled
as `none`. -/
def json_loads (s : String) : Option Json :=
  match parseValue (s.data.length + 1) (skipWs s.data) with
  | some (v, rest) => if skipWs rest = [] then some v else none
  | none => none

/-! ## `json.dumps` -/

/-- Lowercase hex digit. -/
def hexDigitChar (n : Nat) : Char :=
  if n < 10 then Char.ofNat (48 + n) else Char.ofNat (87 + n)

/-- Four-digit hex rendering used by `\u` escapes. -/
def hex4 (n : Nat) : List Char :=
  [hexDigitChar (n / 4096 % 16), hexDigitChar (n / 256 % 16),
   hexDigitChar (n / 16 % 16), hexDigitChar (n % 16)]

/-- `json.dumps` escaping of one string character; with `ensureAscii` set,
non-ASCII characters become `\u` escapes (surrogate pairs beyond the BMP),
exactly as CPython does. -/
def escapeStringChar (ensureAscii : Bool) (c : Char) : List Char :=
  if c = '"' then ['\\', '"']
  else if c = '\\' then ['\\', '\\']
  else if c = '\n' then ['\\', 'n']
  else if c = '\r' then ['\\', 'r']
  else if c = '\t' then ['\\', 't']
  else if c = Char.ofNat 8 then ['\\', 'b']
  else if c = Char.ofNat 12 then ['\\', 'f']
  else if c.toNat < 32 then '\\' :: 'u' :: hex4 c.toNat
  else if ensureAscii ∧ 127 < c.toNat then
    if c.toNat ≤ 0xFFFF then '\\' :: 'u' :: hex4 c.toNat
    else
      let n := c.toNat - 0x10000
      ('\\' :: 'u' :: hex4 (0xD800 + n / 0x400)) ++ ('\\' :: 'u' :: hex4 (0xDC00 + n % 0x400))
  else [c]

/-- `json.dumps` rendering of a string. -/
def dumpsString (ensureAscii : Bool) (s : String) : String :=
  ⟨'"' :: (s.data.map (escapeStringChar ensureAscii)).flatten ++ ['"']⟩

mutual

/-- Python `json.dumps` with default separators.  Exact on the fragment
the source serializes (objects, arrays, strings, booleans, null,
integers); float repr is abstracted (never serialized by the source). -/
def json_dumps (ensureAscii : Bool) : Json → String
  | .null => "null"
  | .bool true => "true"
  | .bool false => "false"
  | .num false m _ => toString m
  | .num true m e => toString m ++ "e" ++ toString e
  | .str s => dumpsString ensureAscii s
  | .arr elems => "[" ++ joinWith ", " (dumpsList ensureAscii elems) ++ "]"
  | .obj members =>
      ⟨[braceOpen]⟩ ++ joinWith ", " (dumpsMembers ensureAscii members) ++ ⟨[braceClose]⟩

/-- Serialize array elements. -/
def dumpsList (ensureAscii : Bool) : List Json → List String
  | [] => []
  | v :: rest => json_dumps ensureAscii v :: dumpsList ensureAscii rest

/-- Serialize object members. -/
def dumpsMembers (ensureAscii : Bool) : List (String × Json) → List String
  | [] => []
  | (k, v) :: rest =>
      (dumpsString ensureAscii k ++ ": " ++ json_dumps ensureAscii v)
        :: dumpsMembers ensureAscii rest

end

/-! ## planning.py — `QueryPlan` and `QueryPlanner`

The inference backend (`OllamaClient.generate` reached through
`QueryPlanner._call_model`) is modelled as an oracle `resp : Nat → Option
String` giving the outcome of the model call made on attempt `i`:
`some raw` is a returned response (the internal HTTPError retry of
`_call_model` is folded into the oracle, since its fallback call also just
returns text), and `none` is a `RequestException` escaping `_call_model`,
which `plan_queries` catches per attempt. -/

/-- `planning.QueryPlan` dataclass. -/
structure QueryPlan where
  queries : List String
  rationale : String := ""
  raw_plan : String := ""
  used_model : Bool := false
deriving DecidableEq, Repr

/-- `planning.QueryPlanner` (the client is the `resp` oracle). -/
structure QueryPlanner where
  resp : Nat → Option String
  max_queries : Nat
  max_retries : Nat

/-- `QueryPlanner.__init__`, which clamps both bounds to at least 1. -/
def mkQueryPlanner (resp : Nat → Option String) (max_queries max_retries : Nat) : QueryPlanner :=
  ⟨resp, max 1 max_queries, max 1 max_retries⟩

/-- Drop trailing lines that are blank after stripping
(`while lines and lines[-1].strip() == "": lines.pop()`). -/
def dropTrailingBlank (xs : List String) : List String :=
  (xs.reverse.dropWhile (fun l => pyStrip l == "")).reverse

/-- `QueryPlanner._strip_markdown_fence`. -/
def strip_markdown_fence (raw : String) : String :=
  let text := pyStrip raw
  if ¬ strStartsWith text "```" then raw
  else
    let lines := pySplitlines text
    if lines = [] then raw
    else
      let lines1 := lines.drop 1
      let lines2 := dropTrailingBlank lines1
      let lines3 :=
        match lines2.getLast? with
        | some last => if strStartsWith (pyStrip last) "```" then lines2.dropLast else lines2
        | none => lines2
      let joined := pyStrip (joinWith "\n" lines3)
      if joined = "" then raw else joined

/-- `QueryPlanner._parse_plan`.  `parsed.get(...)` on a decoded non-dict
value raises `AttributeError` (uncaught in the source), modelled as
`Except.error ()`. -/
def parse_plan (raw : String) : Except Unit QueryPlan :=
  let cleaned := strip_markdown_fence raw
  match json_loads cleaned with
  | none => .ok ⟨[], "planner returned invalid JSON", raw, false⟩
  | some parsed =>
      match parsed with
      | Json.obj kvs =>
          let queries :=
            match objGet? kvs "queries" with
            | some (Json.arr raw_queries) =>
                (raw_queries.map (fun q => pyStrip (pyStr q))).filter (fun s => s != "")
            | _ => []
          let rationale := pyStrip (pyStr (objGetD kvs "rationale" (Json.str "")))
          .ok ⟨queries, rationale, raw, false⟩
      | _ => .error ()

/-- The retry loop of `QueryPlanner.plan_queries` (lines 50-82): `fuel`
counts the remaining attempts, `attempt` indexes the oracle, and `plan`
is the accumulator mutated by the Python loop.  A transport failure
resets the plan; a parsed candidate with queries breaks out. -/
def plan_queries_loop (p : QueryPlanner) (attempt fuel : Nat) (plan : QueryPlan) :
    Except Unit QueryPlan :=
  match fuel with
  | 0 => .ok plan
  | fuel + 1 =>
      match p.resp attempt with
      | none => plan_queries_loop p (attempt + 1) fuel ⟨[], "planner request failed", "", false⟩
      | some raw =>
          match parse_plan raw with
          | .error e => .error e
          | .ok cand0 =>
              let cand := { cand0 with raw_plan := raw, used_model := true }
              if cand.queries ≠ [] then .ok cand
              else plan_queries_loop p (attempt + 1) fuel cand

/-- `QueryPlanner.plan_queries` (the prompt strings affect only the
oracle's input and are absorbed by it). -/
def plan_queries (p : QueryPlanner) (company address : String)
    (default_queries : List String) : Except Unit QueryPlan :=
  match plan_queries_loop p 0 p.max_retries ⟨[], "planner request failed", "", false⟩ with
  | .error e => .error e
  | .ok plan0 =>
      let plan1 :=
        if plan0.queries = [] then
          { plan0 with
            queries := default_queries.take p.max_queries
            rationale := if plan0.rationale = "" then "Fallback to heuristic queries" else plan0.rationale
            used_model := plan0.used_model && decide (plan0.raw_plan ≠ "") }
        else plan0
      let qs := (plan1.queries.filter (fun q => pyStrip q != "")).take p.max_queries
      let qs2 := if qs = [] then default_queries.take p.max_queries else qs
      .ok { plan1 with queries := qs2 }

/-! ## research.py — `ResearchPipeline`

The Exa-backed collaborators are modelled by a `ResearchEnv` oracle:
`search` is the outcome of `ExaSearchClient.search` (its internal error
handling already collapses failures to `[]`, and `_safe_search` catches
everything else, so a total function loses nothing); `fetchPrimary` is
`ExaContentFetcher.fetch` (`none` = raised); `fetchFallback` is
`ExaSearchClient.fetch_remote_content` (`none` = raised, `some none` =
returned `None`).

Thread-pool nondeterminism: search futures complete in an arbitrary
order, so aggregated results are modelled as the concatenation of
per-query result lists in an order given by the `searchOrder` function;
fetch futures likewise complete in the order given by `fetchOrder`.
Theorems quantify over these, assuming they permute their input.  The
fetch pool always exists (`fetch_workers = max_documents * 2 ≥ 2`), and
the source's `as_completed` loop checks the document quota *before*
consuming each completed future, which `fetch_loop` mirrors. -/

/-- `research.SearchResult` dataclass. -/
structure SearchResult where
  url : String
  title : String
  snippet : String
deriving DecidableEq, Repr

/-- `research.EvidenceDocument` dataclass. -/
structure EvidenceDocument where
  url : String
  title : String
  snippet : String
  content : String
deriving DecidableEq, Repr

/-- Oracle for the search/fetch backend (see section comment). -/
structure ResearchEnv where
  search : String → Nat → List SearchResult
  fetchPrimary : String → Option String
  fetchFallback : String → Option (Option String)

/-- `research.ResearchPipeline` configuration fields. -/
structure ResearchPipeline where
  max_search_results : Nat
  max_documents : Nat
  planner : Option QueryPlanner
  expanded_queries : Bool
  max_workers : Nat

/-- `ResearchPipeline.__init__`: clamps bounds and derives the worker
budget `max(1, max_documents * 2)`. -/
def mkResearchPipeline (max_search_results max_documents : Nat)
    (planner : Option QueryPlanner) (expanded_queries : Bool) : ResearchPipeline :=
  let msr := max 1 max_search_results
  let md := max 1 max_documents
  ⟨msr, md, planner, expanded_queries, max 1 (md * 2)⟩

/-- `f-string` quoting used by `build_queries`. -/
def quoted (s : String) : String := "\"" ++ s ++ "\""

/-- The strip/dedup loop at the end of `build_queries` (lines 211-215). -/
def dedupQueriesAux : List String → List String → List String
  | [], acc => acc.reverse
  | q :: rest, acc =>
      let q := pyStrip q
      if q ≠ "" ∧ ¬ acc.contains q then dedupQueriesAux rest (q :: acc)
      else dedupQueriesAux rest acc

/-- Strip, drop blanks, and keep first occurrences. -/
def dedupQueries (qs : List String) : List String := dedupQueriesAux qs []

/-- `ResearchPipeline.build_queries`. -/
def build_queries (p : ResearchPipeline) (company address : String) : List String :=
  let company := pyStrip company
  let address := pyStrip address
  let queries : List String :=
    if company ≠ "" ∧ address ≠ "" then
      [quoted company ++ " " ++ quoted address] ++
      (if p.expanded_queries then
         (let first_segment := pyStrip ((pySplitChar address ',').headD "")
          if first_segment ≠ "" then [quoted company ++ " " ++ quoted first_segment ++ " facility"]
          else []) ++
         [quoted company ++ " facility types"]
       else [])
    else if company ≠ "" then
      [quoted company] ++
      (if p.expanded_queries then [quoted company ++ " facility types"] else [])
    else if address ≠ "" then
      [quoted address] ++
      (if p.expanded_queries then
         (let first_segment := pyStrip ((pySplitChar address ',').headD "")
          if first_segment ≠ "" then [quoted first_segment ++ " facility"] else [])
       else [])
    else []
  dedupQueries queries

/-- `ResearchPipeline._safe_search`: empty queries cost no call; any other
query costs exactly one search call, failures contributing `[]`. -/
def safe_search (env : ResearchEnv) (p : ResearchPipeline) (query : String) :
    List SearchResult × Nat :=
  if query = "" then ([], 0)
  else (env.search query p.max_search_results, 1)

/-- `ResearchPipeline._fetch_document`: primary fetch, then the
`fetch_remote_content` fallback on failure; each attempt counts one
fetch call, and empty/absent content yields no document. -/
def fetch_document (env : ResearchEnv) (result : SearchResult) :
    Option EvidenceDocument × Nat :=
  match env.fetchPrimary result.url with
  | some content =>
      if content = "" then (none, 1)
      else (some ⟨result.url, result.title, result.snippet, content⟩, 1)
  | none =>
      match env.fetchFallback result.url with
      | some (some content) =>
          if content = "" then (none, 2)
          else (some ⟨result.url, result.title, result.snippet, content⟩, 2)
      | _ => (none, 2)

/-- URL deduplication of aggregated search results (lines 281-286),
first-seen wins; `seen` is the mutable seen-URL set. -/
def dedup_by_url : List SearchResult → List String → List SearchResult
  | [], _ => []
  | r :: rest, seen =>
      if seen.contains r.url then dedup_by_url rest seen
      else r :: dedup_by_url rest (r.url :: seen)

/-- The fetch fan-out loop (lines 299-310): quota checked before each
completed future is consumed. -/
def fetch_loop (env : ResearchEnv) (maxDocs : Nat) :
    List SearchResult → List EvidenceDocument → Nat → List EvidenceDocument × Nat
  | [], docs, calls => (docs, calls)
  | r :: rest, docs, calls =>
      if maxDocs ≤ docs.length then (docs, calls)
      else
        match fetch_document env r with
        | (some d, c) => fetch_loop env maxDocs rest (docs ++ [d]) (calls + c)
        | (none, c) => fetch_loop env maxDocs rest docs (calls + c)

/-- The search fan-out, URL deduplication, and fetch fan-out of
`collect_evidence` (lines 263-326), returning
`(documents, search_call_count, fetch_call_count)`.  The single-query
case bypasses the search pool (`search_workers ≤ 1`), so no reordering
applies there. -/
def search_and_fetch (env : ResearchEnv) (p : ResearchPipeline) (queries : List String)
    (searchOrder : List String → List String)
    (fetchOrder : List SearchResult → List SearchResult) :
    List EvidenceDocument × Nat × Nat :=
  let qs := if 1 < queries.length then searchOrder queries else queries
  let stepped := qs.map (fun q => safe_search env p q)
  let aggregated := (stepped.map Prod.fst).flatten
  let search_call_count := (stepped.map Prod.snd).sum
  let fetch_candidates := dedup_by_url aggregated []
  if fetch_candidates = [] then ([], search_call_count, 0)
  else
    let pr := fetch_loop env p.max_documents (fetchOrder fetch_candidates) [] 0
    (pr.1, search_call_count, pr.2)

/-- `ResearchPipeline.collect_evidence`.  Returns
`(documents, plan, search_call_count, fetch_call_count)`; a planner
`AttributeError` propagates as `Except.error`. -/
def collect_evidence (env : ResearchEnv) (p : ResearchPipeline) (company address : String)
    (searchOrder : List String → List String)
    (fetchOrder : List SearchResult → List SearchResult) :
    Except Unit (List EvidenceDocument × QueryPlan × Nat × Nat) :=
  if company = "" ∧ address = "" then
    .ok ([], ⟨[], "Missing company and address", "", false⟩, 0, 0)
  else
    let base_queries := build_queries p company address
    let planRes : Except Unit (QueryPlan × List String) :=
      match p.planner with
      | some planner =>
          match plan_queries planner company address base_queries with
          | .error e => .error e
          | .ok plan => .ok (plan, if plan.queries = [] then base_queries else plan.queries)
      | none => .ok (⟨base_queries, "Heuristic query builder", "", false⟩, base_queries)
    match planRes with
    | .error e => .error e
    | .ok (plan, queries) =>
        let r := search_and_fetch env p queries searchOrder fetchOrder
        .ok (r.1, plan, r.2.1, r.2.2)

/-! ## summarizer.py — `EvidenceSummarizer`

The model call (`OllamaClient.generate` on the built prompt) is modelled
by a `gen : Option String` oracle argument: `some raw` is the returned
text, `none` a `RequestException` caught by `summarize`.  The prompt
construction feeds only the oracle and is absorbed by it. -/

/-- `summarizer.EvidenceSummary` dataclass. -/
structure EvidenceSummary where
  text : String
  source_count : Nat
  used_model : Bool
  raw_output : String := ""
deriving DecidableEq, Repr

/-- `summarizer.EvidenceSummarizer` configuration fields. -/
structure EvidenceSummarizer where
  max_documents : Nat
  max_chars_per_doc : Nat
deriving Repr

/-- `EvidenceSummarizer.__init__` clamping (`max(1, ·)`, `max(200, ·)`). -/
def mkEvidenceSummarizer (max_documents max_chars_per_doc : Nat) : EvidenceSummarizer :=
  ⟨max 1 max_documents, max 200 max_chars_per_doc⟩

/-- Python `enumerate(xs, start=1)`. -/
def enumerate1 {α : Type} (xs : List α) : List (Nat × α) :=
  xs.enum.map (fun p => (p.1 + 1, p.2))

/-- `EvidenceSummarizer._fallback_summary`: join
`f"{idx}. {doc.title} — {doc.snippet}"` over the first `max_documents`
documents with `"; "`, or the fixed text if that join is empty. -/
def fallback_summary (s : EvidenceSummarizer) (evidence : List EvidenceDocument) : String :=
  let snippets := (enumerate1 (evidence.take s.max_documents)).map
      (fun p => toString p.1 ++ ". " ++ p.2.title ++ " — " ++ p.2.snippet)
  let joined := joinWith "; " snippets
  if joined = "" then "Evidence available but summarizer failed." else joined

/-- `EvidenceSummarizer.summarize`. -/
def summarize (s : EvidenceSummarizer) (gen : Option String) (company address : String)
    (evidence : List EvidenceDocument) : EvidenceSummary :=
  if evidence = [] then ⟨"No supporting evidence collected yet.", 0, false, ""⟩
  else
    match gen with
    | some raw => ⟨pyStrip raw, min evidence.length s.max_documents, true, raw⟩
    | none =>
        let text := fallback_summary s evidence
        ⟨text, min evidence.length s.max_documents, false, text⟩

/-! ## classification.py — response parsing -/

/-- The dict returned by `run_model_on_address` / `_parse_model_response`. -/
structure ModelResponse where
  site_type : String
  confidence : String
  notes : String
  raw_model_output : String
deriving DecidableEq, Repr

/-- The scanning loop of `_extract_json_blob` (lines 232-248): walk the
raw text tracking brace depth; when depth returns to zero, try to decode
the brace-delimited snippet, and keep scanning on decode failure. -/
def extract_json_blob_loop (full : List Char) :
    List Char → Nat → Nat → Option Nat → Option Json
  | [], _, _, _ => none
  | c :: rest, idx, stack, start? =>
      if c = braceOpen then
        let start2 := if stack = 0 then some idx else start?
        extract_json_blob_loop full rest (idx + 1) (stack + 1) start2
      else if c = braceClose then
        if stack ≠ 0 then
          let stack2 := stack - 1
          if stack2 = 0 then
            match start? with
            | some s =>
                let snippet : String := ⟨(full.drop s).take (idx + 1 - s)⟩
                match json_loads snippet with
                | some v => some v
                | none => extract_json_blob_loop full rest (idx + 1) stack2 start?
            | none => extract_json_blob_loop full rest (idx + 1) stack2 start?
          else extract_json_blob_loop full rest (idx + 1) stack2 start?
        else extract_json_blob_loop full rest (idx + 1) stack start?
      else extract_json_blob_loop full rest (idx + 1) stack start?

/-- `classification._extract_json_blob`. -/
def extract_json_blob (raw : String) : Option Json :=
  extract_json_blob_loop raw.data raw.data 0 0 none

/-- The field-extraction tail of `_parse_model_response` (lines 215-225):
`if parsed:` is Python truthiness, and `.get` on a truthy non-dict value
raises `AttributeError` (modelled as `Except.error`). -/
def parse_response_fields (parsed : Json) (notes0 raw : String) : Except Unit ModelResponse :=
  if parsed.truthy then
    match parsed with
    | Json.obj kvs =>
        .ok ⟨pyStr (objGetD kvs "site_type" (Json.str "")),
             pyStr (objGetD kvs "confidence" (Json.str "")),
             pyStr (objGetD kvs "notes" (Json.str notes0)), raw⟩
    | _ => .error ()
  else .ok ⟨"", "", notes0, raw⟩

/-- `classification._parse_model_response`. -/
def parse_model_response (raw_output : String) : Except Unit ModelResponse :=
  match json_loads raw_output with
  | some parsed => parse_response_fields parsed "" raw_output
  | none =>
      match extract_json_blob raw_output with
      | none => .ok ⟨"", "", "model did not return valid JSON", raw_output⟩
      | some parsed => parse_response_fields parsed "" raw_output

/-! ## agentic.py — `ToolAgent`

The chat endpoint and the two tool backends are modelled by an
`AgentEnv` oracle.  `chat` returns `Except.error exc` for a
`RequestException` (with the exception text), `Except.ok none` for a
response whose `message` field is missing/empty, and `Except.ok (some m)`
otherwise.  `search`/`fetch` failures carry `str(exc)`, which the tool
wrappers embed in their error payloads.  Uncaught Python-level errors
(`AttributeError`/`ValueError` from malformed tool arguments) are
`AgentFailure.pyError`; they are distinct from `ToolAgentError`, which
the caller in classification.py would catch. -/

/-- One entry of a structured `content` list. -/
inductive ContentBlock where
  | str (s : String)
  | obj (textField : Option Json)
  | other
deriving Repr

/-- The `content` field of a chat message (string, block list, or
anything else — which `_extract_content` maps to `""`). -/
inductive ChatContent where
  | str (s : String)
  | blocks (bs : List ContentBlock)
  | other
deriving Repr

/-- The `arguments` field of a tool call. -/
inductive ArgsVal where
  | str (s : String)
  | dict (kvs : List (String × Json))
  | other
deriving Repr

/-- The `function` block of a tool call. -/
structure FunctionBlock where
  name : Option String
  arguments : Option ArgsVal
deriving Repr

/-- One tool call requested by the model. -/
structure ToolCall where
  id : Option String
  function : Option FunctionBlock
deriving Repr

/-- A chat message (`role`/`content`/`tool_calls`, plus the
`tool_call_id` and `name` keys used by tool-role messages). -/
structure ChatMessage where
  role : String
  content : ChatContent
  tool_calls : List ToolCall
  tool_call_id : Option String := none
  name : Option String := none
deriving Repr

/-- Oracle for the chat model and the agent's tool backends. -/
structure AgentEnv where
  chat : List ChatMessage → Except String (Option ChatMessage)
  search : String → Int → Except String (List SearchResult)
  fetch : String → Except String String

/-- How `ToolAgent.classify` can fail: a raised `ToolAgentError`, or an
uncaught ordinary Python exception. -/
inductive AgentFailure where
  | toolAgentError (msg : String)
  | pyError
deriving DecidableEq, Repr

/-- Python `str()` of an optional string (`str(None) = "None"`), as used
by `f"unknown tool '{name}'"`. -/
def pyStrOpt : Option String → String
  | none => "None"
  | some s => s

/-- `ToolAgent._extract_content`. -/
def extract_content : ChatContent → String
  | .str s => pyStrip s
  | .blocks bs =>
      let texts := bs.filterMap (fun b =>
        match b with
        | .str s => some s
        | .obj t => some (pyStr (t.getD (Json.str "")))
        | .other => none)
      pyStrip (joinWith "\n" (texts.filter (fun t => t != "")))
  | .other => ""

/-- The argument-normalization prelude of `_execute_tool` (lines 170-181):
falsy arguments become `{}`, string arguments are JSON-decoded with
decode failures downgraded to `{}`, dict arguments pass through. -/
def toolArgs : Option ArgsVal → Json
  | some (.str s) =>
      if s = "" then Json.obj []
      else
        match json_loads s with
        | some v => v
        | none => Json.obj []
  | some (.dict kvs) => Json.obj kvs
  | some .other => Json.obj []
  | none => Json.obj []

/-- `int()` truncates `mantissa * 10 ^ exp10` toward zero. -/
def numTrunc (m e : Int) : Int :=
  if 0 ≤ e then m * ((10 : Int) ^ e.toNat)
  else
    let q := m.natAbs / 10 ^ (-e).toNat
    if m < 0 then -(q : Int) else (q : Int)

/-- Python `int(s)` on a string: optional surrounding whitespace, an
optional sign, then decimal digits (the underscore-grouping extension is
not modelled; nothing here exercises it). -/
def parsePyIntStr (s : String) : Except Unit Int :=
  let cs := (s.data.dropWhile isPySpace).reverse.dropWhile isPySpace |>.reverse
  let (neg, cs1) :=
    match cs with
    | '-' :: r => (true, r)
    | '+' :: r => (false, r)
    | _ => (false, cs)
  if cs1 = [] ∨ ¬ cs1.all Char.isDigit then .error ()
  else
    let n := digitsToNat cs1 0
    .ok (if neg then -(n : Int) else (n : Int))

/-- Python `int()` applied to a decoded JSON value; non-numeric values
raise (`ValueError`/`TypeError`). -/
def pyIntOfJson : Json → Except Unit Int
  | .bool true => .ok 1
  | .bool false => .ok 0
  | .num false m _ => .ok m
  | .num true m e => .ok (numTrunc m e)
  | .str s => parsePyIntStr s
  | _ => .error ()

/-- `ToolAgent._tool_web_search`. -/
def tool_web_search (env : AgentEnv) (args : Json) : Except AgentFailure String :=
  match args with
  | Json.obj kvs =>
      let query := pyStrip (pyStr (objGetD kvs "query" (Json.str "")))
      let countE : Except Unit Int :=
        if objHas kvs "count" then pyIntOfJson (objGetD kvs "count" (Json.str ""))
        else .ok 5
      match countE with
      | .error _ => .error .pyError
      | .ok count =>
          if query = "" then
            .ok (json_dumps true (Json.obj
              [("error", Json.str "web_search requires a non-empty query")]))
          else
            match env.search query count with
            | .error exc =>
                .ok (json_dumps true (Json.obj
                  [("error", Json.str ("web_search failed: " ++ exc))]))
            | .ok results =>
                .ok (json_dumps false (Json.obj
                  [("query", Json.str query),
                   ("results", Json.arr (results.map (fun r =>
                      Json.obj [("url", Json.str r.url), ("title", Json.str r.title),
                                ("snippet", Json.str r.snippet)])))]))
  | _ => .error .pyError

/-- `ToolAgent._tool_fetch_url`. -/
def tool_fetch_url (env : AgentEnv) (args : Json) : Except AgentFailure String :=
  match args with
  | Json.obj kvs =>
      let url := pyStrip (pyStr (objGetD kvs "url" (Json.str "")))
      if url = "" then
        .ok (json_dumps true (Json.obj [("error", Json.str "fetch_url requires a URL")]))
      else
        match env.fetch url with
        | .error exc =>
            .ok (json_dumps true (Json.obj
              [("error", Json.str ("fetch_url failed: " ++ exc))]))
        | .ok content =>
            .ok (json_dumps false (Json.obj
              [("url", Json.str url), ("content", Json.str (strTake content 4000))]))
  | _ => .error .pyError

/-- `ToolAgent._execute_tool` (dispatch on the requested tool name;
unknown names produce the structured error payload, never an
exception). -/
def execute_tool (env : AgentEnv) (call : ToolCall) : Except AgentFailure String :=
  let fb := call.function.getD ⟨none, none⟩
  let name := fb.name
  let args := toolArgs fb.arguments
  if name = some "web_search" then tool_web_search env args
  else if name = some "fetch_url" then tool_fetch_url env args
  else
    .ok (json_dumps true (Json.obj
      [("error", Json.str ("unknown tool \x27" ++ pyStrOpt name ++ "\x27"))]))

/-- The per-call loop body of `classify` (lines 100-113): execute each
tool call and append the tool-role reply message. -/
def toolMessages (env : AgentEnv) : List ToolCall → Except AgentFailure (List ChatMessage)
  | [] => .ok []
  | call :: rest =>
      match execute_tool env call with
      | .error e => .error e
      | .ok out =>
          let out2 :=
            if out = "" then
              json_dumps false (Json.obj [("error", Json.str "tool execution returned no data")])
            else out
          let msg : ChatMessage :=
            ⟨"tool", ChatContent.str out2, [], call.id, (call.function.getD ⟨none, none⟩).name⟩
          match toolMessages env rest with
          | .error e => .error e
          | .ok ms => .ok (msg :: ms)

/-- The system prompt of `classify`. -/
def agentSystemText : String :=
  "You are an investigative assistant that classifies business facilities. " ++
  "Use the available tools to research the company/address before answering. " ++
  "When you have enough evidence, respond with strict JSON:\n" ++
  "\x7b\n  \"site_type\": \"...\",\n  \"confidence\": \"...\",\n  \"notes\": \"...\" \n\x7d\n" ++
  "If evidence is insufficient, set site_type to \"unknown\" and explain why."

/-- The user prompt of `classify`. -/
def agentUserText (company address : String) : String :=
  "Company: " ++ (if company = "" then "Unknown company" else company) ++
  "\nAddress: " ++ (if address = "" then "Unknown address" else address) ++
  "\nInstructions:\n1. Call web_search to find relevant pages.\n" ++
  "2. Use fetch_url on promising links to gather context.\n" ++
  "3. Summarize the evidence briefly.\n" ++
  "4. Return ONLY the JSON object described above."

/-- `agentic.ToolAgent` (clients are carried by the oracle). -/
structure ToolAgent where
  env : AgentEnv
  max_iterations : Nat

/-- `ToolAgent.__init__` clamps `max_iterations` to at least 1. -/
def mkToolAgent (env : AgentEnv) (max_iterations : Nat) : ToolAgent :=
  ⟨env, max 1 max_iterations⟩

/-- The bounded loop of `classify` (lines 75-121): `fuel` is the number
of remaining iterations; running out, or an empty message structure,
raises the exhaustion `ToolAgentError`. -/
def classify_loop (env : AgentEnv) : Nat → List ChatMessage → Except AgentFailure String
  | 0, _ => .error (.toolAgentError "Agent loop exhausted without final response.")
  | fuel + 1, messages =>
      match env.chat messages with
      | .error exc => .error (.toolAgentError ("Ollama chat request failed: " ++ exc))
      | .ok none => .error (.toolAgentError "Agent loop exhausted without final response.")
      | .ok (some message) =>
          let messages2 := messages ++ [message]
          if message.tool_calls.isEmpty then
            let final_text := extract_content message.content
            if final_text ≠ "" then .ok final_text
            else classify_loop env fuel messages2
          else
            match toolMessages env message.tool_calls with
            | .error e => .error e
            | .ok tms => classify_loop env fuel (messages2 ++ tms)

/-- `ToolAgent.classify`. -/
def ToolAgent.classify (agent : ToolAgent) (company_name address : String) :
    Except AgentFailure String :=
  classify_loop agent.env agent.max_iterations
    [⟨"system", .str agentSystemText, [], none, none⟩,
     ⟨"user", .str (agentUserText company_name address), [], none, none⟩]

/-! ## csvparse.py — per-row orchestration

Rows are Python dicts, modelled as ordered association lists with unique
keys and Python's insert-or-update assignment.  `processRow` embeds the
body of the `process_file` row loop (lines 295-475): cache lookup and
verbatim reuse, evidence collection through the embedded
`collect_evidence`, summarization through the embedded `summarize`, the
classification call, and the escalation pass.  `run_model_on_address` is
abstracted by the `runModel` oracle (a function of the evidence list and
summary text handed to it) returning the result-dict record; the
instrumentation fields of `RowOutcome` count how many times each oracle
was consulted so that "no model/search/fetch calls" is stateable. -/

/-- A CSV row / Python dict with ordered unique keys. -/
abbrev Row := List (String × String)

/-- `row.get(k, default)`. -/
def dictGet (d : Row) (k dflt : String) : String := (List.lookup k d).getD dflt

/-- `k in row`. -/
def dictHasKey (d : Row) (k : String) : Bool := (List.lookup k d).isSome

/-- `row[k] = v` (update in place, or append a new key). -/
def dictSet : Row → String → String → Row
  | [], k, v => [(k, v)]
  | (k0, v0) :: rest, k, v =>
      if k0 = k then (k0, v) :: rest else (k0, v0) :: dictSet rest k v

/-- `constants.ADDRESS_COLUMN`. -/
def ADDRESS_COLUMN : String := "Full Address"

/-- `constants.COMPANY_COLUMN`. -/
def COMPANY_COLUMN : String := "Company Name"

/-- `constants.OUTPUT_EXTRA_HEADERS`. -/
def OUTPUT_EXTRA_HEADERS : List String :=
  ["site_type", "confidence", "notes", "raw_model_output", "query_plan", "evidence_summary"]

/-- `csvparse._cache_key`: normalized (lower-cased, stripped) key, or
`None` when both parts normalize to empty. -/
def cache_key (company address : String) : Option (String × String) :=
  let company_key := pyLower (pyStrip company)
  let address_key := pyLower (pyStrip address)
  if company_key = "" ∧ address_key = "" then none else some (company_key, address_key)

/-- `csvparse.format_query_plan`. -/
def format_query_plan : Option QueryPlan → String
  | none => ""
  | some plan =>
      let parts :=
        (if pyStrip plan.rationale ≠ "" then [pyStrip plan.rationale] else []) ++
        (if ¬ plan.queries.isEmpty then ["Queries: " ++ joinWith "; " plan.queries] else [])
      joinWith " | " parts

/-- One category-suggestion entry (`{"name": ..., "description": ...}`). -/
structure CategoryHint where
  name : String
  description : String
deriving DecidableEq, Repr

/-- `csvparse.format_category_signature`. -/
def format_category_signature (cats : List CategoryHint) : String :=
  if cats.isEmpty then ""
  else
    joinWith " | " (cats.filterMap (fun e =>
      let name := pyStrip e.name
      if name = "" then none
      else
        let d := pyStrip e.description
        some (if d = "" then name else name ++ ": " ++ d)))

/-- The fixed phrase set of `_needs_expanded_search`. -/
def insufficiencyPhrases : List String :=
  ["insufficient", "not enough", "unable to determine", "no evidence"]

/-- `csvparse._needs_expanded_search`. -/
def needs_expanded_search (result : ModelResponse) : Bool :=
  let site_type := pyLower (pyStrip result.site_type)
  if site_type = "" ∨ site_type = "unknown" then true
  else
    let notes := pyLower (pyStrip result.notes)
    insufficiencyPhrases.any (fun p => strContains notes p)

/-- The `process_file` configuration relevant to one row. -/
structure RowConfig where
  max_search_results : Nat := 5
  max_documents : Nat := 3
  expanded_search_results : Option Nat := none
  expanded_max_documents : Option Nat := none
  category_hint_list : List CategoryHint := []
  enable_web_research : Bool := false
  use_agentic_tools : Bool := false
  stack_available : Bool := false

/-- Oracles consumed while processing one row: the research backend, the
planner's and summarizer's model calls, the classification call
(`runModel evidence summary`), and the completion orders of the two
collection passes' worker pools. -/
structure RowEnv where
  renv : ResearchEnv
  planner_resp : Nat → Option String
  summGen : List EvidenceDocument → Option String
  runModel : List EvidenceDocument → String → ModelResponse
  searchOrderBase : List String → List String
  fetchOrderBase : List SearchResult → List SearchResult
  searchOrderExp : List String → List String
  fetchOrderExp : List SearchResult → List SearchResult

/-- `query_planner` (built with default bounds iff web research is on,
line 186). -/
def rowQueryPlanner (cfg : RowConfig) (env : RowEnv) : Option QueryPlanner :=
  if cfg.enable_web_research then some (mkQueryPlanner env.planner_resp 5 2) else none

/-- `evidence_summarizer` (built with default bounds iff web research is
on, line 187). -/
def rowSummarizer (cfg : RowConfig) : Option EvidenceSummarizer :=
  if cfg.enable_web_research then some (mkEvidenceSummarizer 3 600) else none

/-- `research_pipeline` (lines 217-238): built without planner and
without query expansion, iff web research is enabled and the search
stack was initialized. -/
def rowBasePipeline (cfg : RowConfig) : Option ResearchPipeline :=
  if cfg.enable_web_research ∧ cfg.stack_available then
    some (mkResearchPipeline cfg.max_search_results cfg.max_documents none false)
  else none

/-- The widened thresholds of the escalation pass (lines 381-392):
overrides or doubled defaults, clamped to at least the base values. -/
def rowExpandedThresholds (cfg : RowConfig) : Nat × Nat :=
  (max (cfg.expanded_search_results.getD (cfg.max_search_results * 2)) cfg.max_search_results,
   max (cfg.expanded_max_documents.getD (cfg.max_documents * 2)) cfg.max_documents)

/-- The `expanded_pipeline` of the escalation pass (lines 416-423). -/
def rowExpandedPipeline (cfg : RowConfig) (env : RowEnv) : ResearchPipeline :=
  mkResearchPipeline (rowExpandedThresholds cfg).1 (rowExpandedThresholds cfg).2
    (rowQueryPlanner cfg env) true

/-- Result of processing one row, with instrumentation: the output row,
the search/fetch call totals, how often the classification and
summarizer oracles ran, how many base and expanded collection passes ran
(the latter recording the pipeline configuration used), and whether the
cached row was reused. -/
structure RowOutcome where
  merged : Row
  search_calls : Nat
  fetch_calls : Nat
  model_calls : Nat
  summ_calls : Nat
  base_collects : Nat
  expansion_collects : List ResearchPipeline
  cache_reused : Bool

/-- The output-row assembly (lines 466-474): model-result columns merged
over the input row, then the optional plan/summary/category columns. -/
def mergeRow (row : Row) (mr : ModelResponse)
    (plan_summary evidence_summary_text category_hint_text : String) : Row :=
  let merged := dictSet (dictSet (dictSet (dictSet row "site_type" mr.site_type)
      "confidence" mr.confidence) "notes" mr.notes) "raw_model_output" mr.raw_model_output
  let merged := if plan_summary ≠ "" then dictSet merged "query_plan" plan_summary else merged
  let merged :=
    if evidence_summary_text ≠ "" then dictSet merged "evidence_summary" evidence_summary_text
    else merged
  if category_hint_text ≠ "" then dictSet merged "category_suggestions" category_hint_text
  else if ¬ dictHasKey merged "category_suggestions" then dictSet merged "category_suggestions" ""
  else merged

/-- The classification path of the row loop (lines 335-475): base
collection, summarization, classification, and at most one escalation
pass. -/
def classifyFresh (cfg : RowConfig) (env : RowEnv) (company address : String)
    (row : Row) (category_hint_text : String) : Except Unit RowOutcome :=
  let baseStep : Except Unit (List EvidenceDocument × Option QueryPlan × Nat × Nat × Nat) :=
    match rowBasePipeline cfg with
    | some bp =>
        match collect_evidence env.renv bp company address env.searchOrderBase env.fetchOrderBase with
        | .error e => .error e
        | .ok (docs, plan, sc, fc) => .ok (docs, some plan, sc, fc, 1)
    | none => .ok ([], none, 0, 0, 0)
  match baseStep with
  | .error e => .error e
  | .ok (evidence_docs, queryPlanOpt, sc, fc, bc) =>
      let original_plan_summary := format_query_plan queryPlanOpt
      let (evidence_summary_text, summc) :=
        match rowSummarizer cfg with
        | some sm =>
            if ¬ evidence_docs.isEmpty then
              ((summarize sm (env.summGen evidence_docs) company address evidence_docs).text, 1)
            else ("", 0)
        | none => ("", 0)
      let model_result := env.runModel evidence_docs evidence_summary_text
      let can_expand := needs_expanded_search model_result && cfg.stack_available
      if can_expand then
        let er := (rowExpandedThresholds cfg).1
        let ed := (rowExpandedThresholds cfg).2
        let current_max_results :=
          match rowBasePipeline cfg with
          | some bp => bp.max_search_results
          | none => cfg.max_search_results
        let current_max_documents :=
          match rowBasePipeline cfg with
          | some bp => bp.max_documents
          | none => cfg.max_documents
        let current_expanded :=
          match rowBasePipeline cfg with
          | some bp => bp.expanded_queries
          | none => false
        let should_expand := (!current_expanded) || decide (current_max_results < er) ||
          decide (current_max_documents < ed) || evidence_docs.isEmpty
        if should_expand then
          let ep := rowExpandedPipeline cfg env
          match collect_evidence env.renv ep company address env.searchOrderExp env.fetchOrderExp with
          | .error e => .error e
          | .ok (new_docs, new_plan, nsc, nfc) =>
              if ¬ new_docs.isEmpty then
                let new_plan_summary := format_query_plan (some new_plan)
                let plan_summary :=
                  if original_plan_summary ≠ "" ∧ new_plan_summary ≠ "" ∧
                      new_plan_summary ≠ original_plan_summary then
                    original_plan_summary ++ " || Expanded: " ++ new_plan_summary
                  else if new_plan_summary ≠ "" then "Expanded: " ++ new_plan_summary
                  else original_plan_summary
                let (summary_text2, summc2) :=
                  match rowSummarizer cfg with
                  | some sm =>
                      ((summarize sm (env.summGen new_docs) company address new_docs).text,
                       summc + 1)
                  | none => (evidence_summary_text, summc)
                let model_result2 := env.runModel new_docs summary_text2
                .ok ⟨mergeRow row model_result2 plan_summary summary_text2 category_hint_text,
                     sc + nsc, fc + nfc, 2, summc2, bc, [ep], false⟩
              else
                .ok ⟨mergeRow row model_result original_plan_summary evidence_summary_text
                       category_hint_text,
                     sc + nsc, fc + nfc, 1, summc, bc, [ep], false⟩
        else
          .ok ⟨mergeRow row model_result original_plan_summary evidence_summary_text
                 category_hint_text,
               sc, fc, 1, summc, bc, [], false⟩
      else
        .ok ⟨mergeRow row model_result original_plan_summary evidence_summary_text
               category_hint_text,
             sc, fc, 1, summc, bc, [], false⟩

/-- One iteration of the `process_file` row loop (lines 295-475): cache
lookup keyed by the normalized (company, address) pair, verbatim reuse
when the stored category signature matches the current one, and the
classification path otherwise. -/
def processRow (cfg : RowConfig) (env : RowEnv)
    (cached : List ((String × String) × Row)) (row : Row) : Except Unit RowOutcome :=
  let address := pyStrip (dictGet row ADDRESS_COLUMN "")
  let company := pyStrip (dictGet row COMPANY_COLUMN "")
  let category_hint_text := format_category_signature cfg.category_hint_list
  let cache_hit : Option Row :=
    match cache_key company address with
    | some k => List.lookup k cached
    | none => none
  match cache_hit with
  | some hit =>
      if dictGet hit "category_suggestions" "" = category_hint_text then
        let merged := OUTPUT_EXTRA_HEADERS.foldl
          (fun m h => if dictHasKey hit h then dictSet m h (dictGet hit h "") else m) row
        .ok ⟨merged, 0, 0, 0, 0, 0, [], true⟩
      else classifyFresh cfg env company address row category_hint_text
  | none => classifyFresh cfg env company address row category_hint_text

/-! ## Theorems -/

/-- C6: if both company and address are empty, `collect_evidence` returns
an empty document list, a plan with no queries, rationale
"Missing company and address" and `used_model = false`, and zero search
and fetch call counts — no search or fetch activity happens. -/
theorem collect_evidence_missing_inputs (env : ResearchEnv) (p : ResearchPipeline)
    (so : List String → List String) (fo : List SearchResult → List SearchResult) :
    collect_evidence env p "" "" so fo =
      .ok ([], ⟨[], "Missing company and address", "", false⟩, 0, 0) := rfl

/-- C7: on the raw model output consisting of noise around the JSON
object `\x7b"site_type":"warehouse","confidence":"high","notes":"ok"\x7d`,
response parsing recovers `site_type = "warehouse"`, `confidence = "high"`
and `notes = "ok"` via the first balanced-brace JSON object, preserving
the raw output. -/
theorem parse_model_response_recovers_blob :
    parse_model_response
        "noise \x7b\"site_type\":\"warehouse\",\"confidence\":\"high\",\"notes\":\"ok\"\x7d trailing" =
      .ok ⟨"warehouse", "high", "ok",
        "noise \x7b\"site_type\":\"warehouse\",\"confidence\":\"high\",\"notes\":\"ok\"\x7d trailing"⟩ := by
  rfl

/-- C8 counterexample: the raw output "0" decodes strictly to a
non-object JSON value and balanced-brace extraction finds nothing, yet
`_parse_model_response` returns `notes = ""` rather than
"model did not return valid JSON"; and the raw output "5" makes it raise
`AttributeError` (truthy non-dict), returning nothing at all. -/
theorem parse_model_response_nonobject_counterexample :
    json_loads "0" = some (Json.num false 0 0) ∧
    extract_json_blob "0" = none ∧
    parse_model_response "0" = .ok ⟨"", "", "", "0"⟩ ∧
    parse_model_response "5" = .error () := ⟨rfl, rfl, rfl, rfl⟩

/-- Helper: every result `parse_response_fields` actually returns carries
the raw output through unchanged. -/
theorem parse_response_fields_raw (parsed : Json) (notes0 raw : String) (r : ModelResponse)
    (h : parse_response_fields parsed notes0 raw = .ok r) : r.raw_model_output = raw := by
  unfold parse_response_fields at h
  split at h
  · split at h
    · injection h with h2
      subst h2
      rfl
    · exact Except.noConfusion h
  · injection h with h2
    subst h2
    rfl

/-- C8 (amended): when strict JSON decoding raises a decode error and
balanced-brace extraction also fails, `_parse_model_response` returns
empty `site_type` and `confidence` with
`notes = "model did not return valid JSON"`; and whenever it returns at
all (no Python-level error), the returned `raw_model_output` equals the
input unmodified. -/
theorem parse_model_response_failure_and_raw (raw : String) :
    (json_loads raw = none → extract_json_blob raw = none →
       parse_model_response raw = .ok ⟨"", "", "model did not return valid JSON", raw⟩) ∧
    (∀ r, parse_model_response raw = .ok r → r.raw_model_output = raw) := by
  constructor
  · intro h1 h2
    unfold parse_model_response
    rw [h1, h2]
  · intro r hr
    unfold parse_model_response at hr
    cases hj : json_loads raw with
    | some parsed =>
        rw [hj] at hr
        exact parse_response_fields_raw _ _ _ _ hr
    | none =>
        rw [hj] at hr
        cases hb : extract_json_blob raw with
        | some parsed =>
            rw [hb] at hr
            exact parse_response_fields_raw _ _ _ _ hr
        | none =>
            rw [hb] at hr
            injection hr with h2
            subst h2
            rfl

/-- Witness for C8's amended theorem at the raw output "hello". -/
theorem parse_model_response_failure_and_raw_witness :
    parse_model_response "hello" = .ok ⟨"", "", "model did not return valid JSON", "hello"⟩ :=
  (parse_model_response_failure_and_raw "hello").1 rfl rfl

/-- C9 counterexample: on a successful model call returning the empty
string, `summarize` returns an empty `text` (with `used_model = true`),
so the returned text is not always non-empty. -/
theorem summarize_text_empty_counterexample :
    (summarize (mkEvidenceSummarizer 3 600) (some "") "Acme Co" "1 Main St"
      [⟨"u", "t", "s", "c"⟩]).text = "" ∧
    (summarize (mkEvidenceSummarizer 3 600) (some "") "Acme Co" "1 Main St"
      [⟨"u", "t", "s", "c"⟩]).used_model = true := ⟨rfl, rfl⟩

/-- C9 (amended): `summarize` returns non-empty text whenever the model
is not used: with an empty document list it is the fixed no-evidence
text with `used_model = false`, and on a transport failure it is the
extractive fallback `fallback_summary` (joining
`"{index}. {title} — {snippet}"` over the first `max_documents`
documents), which is never empty, with `used_model = false`; a
successful model call instead returns the stripped raw output, which may
be empty. -/
theorem summarize_fallback_properties (s : EvidenceSummarizer) (gen : Option String)
    (company address : String) (evidence : List EvidenceDocument) :
    (evidence = [] →
      summarize s gen company address evidence =
        ⟨"No supporting evidence collected yet.", 0, false, ""⟩) ∧
    (evidence ≠ [] → gen = none →
      summarize s gen company address evidence =
        ⟨fallback_summary s evidence, min evidence.length s.max_documents, false,
         fallback_summary s evidence⟩ ∧
      fallback_summary s evidence ≠ "") := by
  constructor
  · intro h
    subst h
    rfl
  · intro hne hg
    subst hg
    refine ⟨?_, ?_⟩
    · unfold summarize
      rw [if_neg hne]
    · unfold fallback_summary
      dsimp only
      split
      · decide
      · next hj => exact hj

/-- Witness for C9's amended theorem on one document with the model
transport failing. -/
theorem summarize_fallback_properties_witness :
    summarize (mkEvidenceSummarizer 3 600) none "Acme Co" "1 Main St"
        [⟨"u", "t", "s", "c"⟩] =
      ⟨fallback_summary (mkEvidenceSummarizer 3 600) [⟨"u", "t", "s", "c"⟩],
       min ([⟨"u", "t", "s", "c"⟩] : List EvidenceDocument).length
         (mkEvidenceSummarizer 3 600).max_documents, false,
       fallback_summary (mkEvidenceSummarizer 3 600) [⟨"u", "t", "s", "c"⟩]⟩ ∧
    fallback_summary (mkEvidenceSummarizer 3 600) [⟨"u", "t", "s", "c"⟩] ≠ "" :=
  (summarize_fallback_properties (mkEvidenceSummarizer 3 600) none "Acme Co" "1 Main St"
    [⟨"u", "t", "s", "c"⟩]).2 (by decide) rfl

/-- C2 counterexample: with the model returning the non-JSON text
"not json" on both attempts, `plan_queries` does return the default
queries truncated to `max_queries`, but with
`rationale = "planner returned invalid JSON"` and `used_model = true` —
not the claimed `rationale = "Fallback to heuristic queries"` with
`used_model = false`. -/
theorem plan_queries_fallback_counterexample :
    plan_queries (mkQueryPlanner (fun _ => some "not json") 5 2) "Acme Co" "1 Main St" ["dq"] =
      .ok ⟨["dq"], "planner returned invalid JSON", "not json", true⟩ := rfl

/-- Helper: `_parse_plan` on undecodable input returns the sentinel
invalid-JSON plan. -/
theorem parse_plan_invalid (raw : String)
    (hj : json_loads (strip_markdown_fence raw) = none) :
    parse_plan raw = .ok ⟨[], "planner returned invalid JSON", raw, false⟩ := by
  unfold parse_plan
  dsimp only
  rw [hj]

/-- Helper: one iteration of the planning retry loop on an attempt whose
response is non-JSON steps to the next attempt carrying the sentinel
plan. -/
theorem plan_queries_loop_step (p : QueryPlanner) (attempt fuel : Nat) (plan : QueryPlan)
    (r : String) (hr : p.resp attempt = some r)
    (hj : json_loads (strip_markdown_fence r) = none) :
    plan_queries_loop p attempt (fuel + 1) plan =
      plan_queries_loop p (attempt + 1) fuel ⟨[], "planner returned invalid JSON", r, true⟩ := by
  conv_lhs => rw [plan_queries_loop]
  rw [hr]
  dsimp only
  rw [parse_plan_invalid r hj]
  simp

/-- Helper: if every attempt yields non-empty non-JSON output, the retry
loop ends with the sentinel plan for some such raw output. -/
theorem plan_queries_loop_invalid (p : QueryPlanner)
    (hresp : ∀ i, ∃ r, p.resp i = some r ∧ r ≠ "" ∧
      json_loads (strip_markdown_fence r) = none) :
    ∀ fuel attempt plan, 1 ≤ fuel →
      ∃ raw, plan_queries_loop p attempt fuel plan =
          .ok ⟨[], "planner returned invalid JSON", raw, true⟩ ∧ raw ≠ "" := by
  intro fuel
  induction fuel with
  | zero => intro attempt plan h; omega
  | succ n ih =>
      intro attempt plan _
      obtain ⟨r, hr, hne, hj⟩ := hresp attempt
      rw [plan_queries_loop_step p attempt n plan r hr hj]
      cases n with
      | zero => exact ⟨r, rfl, hne⟩
      | succ m => exact ih (attempt + 1) _ (by omega)

/-- C2 (amended): if the model's output yields no usable queries on every
attempt because each response is non-empty invalid JSON, `plan_queries`
returns a plan whose queries equal `default_queries` truncated to
`max_queries` (the defaults being non-blank), but with
`used_model = true` and `rationale = "planner returned invalid JSON"`
(the "Fallback to heuristic queries" rationale and `used_model = false`
arise only when the sentinel rationale is empty, which invalid JSON
never produces). -/
theorem plan_queries_invalid_json_fallback (resp : Nat → Option String) (mq mr : Nat)
    (company address : String) (dq : List String)
    (hresp : ∀ i, ∃ r, resp i = some r ∧ r ≠ "" ∧
      json_loads (strip_markdown_fence r) = none)
    (hdq : ∀ q ∈ dq, pyStrip q ≠ "") :
    ∃ raw, plan_queries (mkQueryPlanner resp mq mr) company address dq =
        .ok ⟨dq.take (max 1 mq), "planner returned invalid JSON", raw, true⟩ ∧ raw ≠ "" := by
  obtain ⟨raw, hloop, hne⟩ :=
    plan_queries_loop_invalid (mkQueryPlanner resp mq mr) hresp (max 1 mr) 0
      ⟨[], "planner request failed", "", false⟩ (le_max_left _ _)
  refine ⟨raw, ?_, hne⟩
  unfold plan_queries
  simp only [mkQueryPlanner] at hloop ⊢
  rw [hloop]
  have hfilter : (dq.take (max 1 mq)).filter (fun q => pyStrip q != "") = dq.take (max 1 mq) := by
    rw [List.filter_eq_self]
    intro q hq
    have := hdq q (List.take_subset _ _ hq)
    simpa using this
  simp only [hne, decide_not]
  simp [hfilter, List.take_take, hne]

/-- Witness for C2's amended theorem: both attempts answer "not json". -/
theorem plan_queries_invalid_json_fallback_witness :
    ∃ raw, plan_queries (mkQueryPlanner (fun _ => some "not json") 4 2) "Acme Co" "1 Main St"
          ["dq", "dq2"] =
        .ok ⟨["dq", "dq2"].take (max 1 4), "planner returned invalid JSON", raw, true⟩ ∧
      raw ≠ "" :=
  plan_queries_invalid_json_fallback (fun _ => some "not json") 4 2 "Acme Co" "1 Main St"
    ["dq", "dq2"] (fun _ => ⟨"not json", rfl, by decide, rfl⟩) (by decide)

/-- Helper: URL deduplication produces pairwise-distinct URLs, none of
which were already in the seen set. -/
theorem dedup_by_url_spec (l : List SearchResult) :
    ∀ seen : List String,
      ((dedup_by_url l seen).map SearchResult.url).Nodup ∧
      ∀ u ∈ (dedup_by_url l seen).map SearchResult.url, u ∉ seen := by
  induction l with
  | nil => intro seen; simp [dedup_by_url]
  | cons r rest ih =>
      intro seen
      by_cases hc : seen.contains r.url
      · rw [dedup_by_url, if_pos hc]
        refine ⟨(ih seen).1, fun u hu => (ih seen).2 u hu⟩
      · rw [dedup_by_url, if_neg hc]
        obtain ⟨h1, h2⟩ := ih (r.url :: seen)
        refine ⟨?_, ?_⟩
        · rw [List.map_cons, List.nodup_cons]
          refine ⟨fun hmem => ?_, h1⟩
          exact h2 r.url hmem (List.mem_cons_self _ _)
        · intro u hu
          rw [List.map_cons, List.mem_cons] at hu
          rcases hu with rfl | hu
          · intro hmem
            exact hc (List.elem_eq_true_of_mem hmem)
          · intro hmem
            exact h2 u hu (List.mem_cons_of_mem _ hmem)

/-- Helper: a fetched document keeps its candidate's URL. -/
theorem fetch_document_url (env : ResearchEnv) (r : SearchResult) (d : EvidenceDocument)
    (h : (fetch_document env r).1 = some d) : d.url = r.url := by
  unfold fetch_document at h
  split at h
  · split at h
    · exact Option.noConfusion h
    · injection h with h2
      subst h2
      rfl
  · split at h
    · split at h
      · exact Option.noConfusion h
      · injection h with h2
        subst h2
        rfl
    · exact Option.noConfusion h

/-- Helper: the fetch loop keeps the document count within the quota and
the document URLs pairwise distinct, given that the accumulated and
pending URLs are jointly duplicate-free. -/
theorem fetch_loop_spec (env : ResearchEnv) (maxDocs : Nat) :
    ∀ (cands : List SearchResult) (docs : List EvidenceDocument) (calls : Nat),
      docs.length ≤ maxDocs →
      (docs.map EvidenceDocument.url ++ cands.map SearchResult.url).Nodup →
      (fetch_loop env maxDocs cands docs calls).1.length ≤ maxDocs ∧
      ((fetch_loop env maxDocs cands docs calls).1.map EvidenceDocument.url).Nodup := by
  intro cands
  induction cands with
  | nil =>
      intro docs calls hlen hnd
      rw [fetch_loop]
      exact ⟨hlen, by simpa using hnd.of_append_left⟩
  | cons r rest ih =>
      intro docs calls hlen hnd
      rw [fetch_loop]
      by_cases hq : maxDocs ≤ docs.length
      · rw [if_pos hq]
        exact ⟨hlen, by simpa using hnd.of_append_left⟩
      · rw [if_neg hq]
        rcases hfd : fetch_document env r with ⟨dopt, c⟩
        cases dopt with
        | some d =>
            have hurl : d.url = r.url := fetch_document_url env r d (by rw [hfd])
            apply ih
            · rw [List.length_append]
              simpa using Nat.succ_le_of_lt (Nat.lt_of_not_le hq)
            · rw [List.map_append, List.append_assoc]
              simpa [hurl] using hnd
        | none =>
            apply ih docs (calls + c) hlen
            refine hnd.sublist ?_
            exact List.Sublist.append_left (List.sublist_cons_self _ _) _

/-- Helper: the fetch phase over reordered duplicate-free candidates. -/
theorem fetch_phase_spec (env : ResearchEnv) (maxDocs : Nat) (cands0 : List SearchResult)
    (fo : List SearchResult → List SearchResult) (hfo : ∀ l, (fo l).Perm l)
    (hnd : (cands0.map SearchResult.url).Nodup) :
    (fetch_loop env maxDocs (fo cands0) [] 0).1.length ≤ maxDocs ∧
    ((fetch_loop env maxDocs (fo cands0) [] 0).1.map EvidenceDocument.url).Nodup :=
  fetch_loop_spec env maxDocs (fo cands0) [] 0 (by simp)
    (by simpa using ((hfo cands0).map SearchResult.url).nodup_iff.mpr hnd)

/-- Helper: the combined search/dedup/fetch phase respects the document
quota and URL uniqueness. -/
theorem search_and_fetch_spec (env : ResearchEnv) (p : ResearchPipeline)
    (queries : List String) (so : List String → List String)
    (fo : List SearchResult → List SearchResult) (hfo : ∀ l, (fo l).Perm l) :
    (search_and_fetch env p queries so fo).1.length ≤ p.max_documents ∧
    ((search_and_fetch env p queries so fo).1.map EvidenceDocument.url).Nodup := by
  unfold search_and_fetch
  dsimp only
  split <;>
  · split
    · simp
    · exact fetch_phase_spec env p.max_documents _ fo hfo (dedup_by_url_spec _ []).1

/-- C1: every successful `collect_evidence` call returns at most
`max_documents` documents, and no two returned documents share a URL
(deduplication by exact string equality within the call), for any
completion order of the concurrent search and fetch pools. -/
theorem collect_evidence_bounds (env : ResearchEnv) (p : ResearchPipeline)
    (company address : String) (so : List String → List String)
    (fo : List SearchResult → List SearchResult)
    (hfo : ∀ l, (fo l).Perm l) :
    ∀ docs plan sc fc,
      collect_evidence env p company address so fo = .ok (docs, plan, sc, fc) →
      docs.length ≤ p.max_documents ∧ (docs.map EvidenceDocument.url).Nodup := by
  intro docs plan sc fc h
  unfold collect_evidence at h
  dsimp only at h
  split at h
  · injection h with h2
    cases h2
    simp
  · split at h
    · exact Except.noConfusion h
    · injection h with h2
      cases h2
      exact search_and_fetch_spec env p _ so fo hfo

/-- A concrete research environment: every search yields the same URL
twice, and every page fetch succeeds. -/
def c1Env : ResearchEnv :=
  ⟨fun _ _ => [⟨"u", "t", "s"⟩, ⟨"u", "t", "s"⟩], fun _ => some "body", fun _ => some none⟩

/-- Witness for C1 on a pipeline with `max_documents = 1` and duplicated
search results. -/
theorem collect_evidence_bounds_witness :
    ([⟨"u", "t", "s", "body"⟩] : List EvidenceDocument).length ≤
        (mkResearchPipeline 5 1 none false).max_documents ∧
    (([⟨"u", "t", "s", "body"⟩] : List EvidenceDocument).map EvidenceDocument.url).Nodup :=
  collect_evidence_bounds c1Env (mkResearchPipeline 5 1 none false) "Acme Co" "1 Main St" id id
    (fun l => List.Perm.refl l) [⟨"u", "t", "s", "body"⟩]
    ⟨["\"Acme Co\" \"1 Main St\""], "Heuristic query builder", "", false⟩ 1 1 rfl

/-- Helper: a serialized JSON object is never the empty string. -/
theorem json_dumps_obj_ne_empty (ea : Bool) (kvs : List (String × Json)) :
    json_dumps ea (Json.obj kvs) ≠ "" := by
  intro h
  have h2 := congrArg String.data h
  simp only [json_dumps] at h2
  rw [String.data_append, String.data_append] at h2
  exact List.noConfusion h2

/-- C3 (the half that holds of agentic.py): if the model emits only tool
calls on every turn (each executing without a Python-level error) and
never any final content, `ToolAgent.classify` raises the
bounded-exhaustion `ToolAgentError` after `max_iterations` turns. -/
theorem classify_exhausts_on_tool_only_turns (env : AgentEnv) (mi : Nat)
    (company address : String)
    (h_chat : ∀ ms, ∃ m, env.chat ms = .ok (some m) ∧ m.tool_calls ≠ [] ∧
        ∃ tms, toolMessages env m.tool_calls = .ok tms) :
    (mkToolAgent env mi).classify company address =
      .error (.toolAgentError "Agent loop exhausted without final response.") := by
  have hloop : ∀ fuel ms, classify_loop env fuel ms =
      .error (.toolAgentError "Agent loop exhausted without final response.") := by
    intro fuel
    induction fuel with
    | zero => intro ms; rfl
    | succ n ih =>
        intro ms
        obtain ⟨m, hm, hne, tms, htms⟩ := h_chat ms
        have hie : m.tool_calls.isEmpty = false := by
          simpa [List.isEmpty_iff] using hne
        simp only [classify_loop, hm, hie, htms, Bool.false_eq_true, if_false]
        exact ih _
  exact hloop _ _

/-- A tool call whose function name is unknown. -/
def c3Call : ToolCall := ⟨some "1", some ⟨some "frob", none⟩⟩

/-- A model turn that only requests `c3Call`. -/
def c3Msg : ChatMessage := ⟨"assistant", .other, [c3Call], none, none⟩

/-- An agent environment whose model answers every turn with tool calls
only. -/
def c3Env : AgentEnv :=
  ⟨fun _ => .ok (some c3Msg), fun _ _ => .error "no network", fun _ => .error "no network"⟩

/-- Witness for C3's exhaustion theorem at six iterations. -/
theorem classify_exhausts_witness :
    (mkToolAgent c3Env 6).classify "Acme Co" "1 Main St" =
      .error (.toolAgentError "Agent loop exhausted without final response.") :=
  classify_exhausts_on_tool_only_turns c3Env 6 "Acme Co" "1 Main St"
    (fun _ => ⟨c3Msg, rfl, List.cons_ne_nil _ _,
      ⟨[⟨"tool", .str "\x7b\"error\": \"unknown tool \x27frob\x27\"\x7d", [],
        some "1", some "frob"⟩], rfl⟩⟩)

/-- C10: a tool call whose function name is neither "web_search" nor
"fetch_url" raises nothing: `_execute_tool` returns the serialized
`\x7b"error": "unknown tool '<name>'"\x7d` payload, and the loop appends
it as an ordinary tool-role message keyed by the originating call id. -/
theorem execute_tool_unknown_name (env : AgentEnv) (call : ToolCall) (fb : FunctionBlock)
    (n : String) (hfb : call.function = some fb) (hname : fb.name = some n)
    (h1 : n ≠ "web_search") (h2 : n ≠ "fetch_url") :
    execute_tool env call =
      .ok (json_dumps true (Json.obj
        [("error", Json.str ("unknown tool \x27" ++ n ++ "\x27"))])) ∧
    toolMessages env [call] =
      .ok [⟨"tool",
        .str (json_dumps true (Json.obj
          [("error", Json.str ("unknown tool \x27" ++ n ++ "\x27"))])),
        [], call.id, some n⟩] := by
  have hex : execute_tool env call =
      .ok (json_dumps true (Json.obj
        [("error", Json.str ("unknown tool \x27" ++ n ++ "\x27"))])) := by
    unfold execute_tool
    rw [hfb]
    dsimp only [Option.getD]
    rw [hname]
    rw [if_neg (by simp [h1]), if_neg (by simp [h2])]
    rfl
  refine ⟨hex, ?_⟩
  unfold toolMessages
  rw [hex]
  dsimp only
  rw [if_neg (json_dumps_obj_ne_empty _ _)]
  rw [hfb]
  dsimp only [Option.getD]
  rw [hname]
  rfl

/-- A concrete unknown-name tool call. -/
def c10Call : ToolCall := ⟨some "id9", some ⟨some "frobnicate", none⟩⟩

/-- An agent environment for the C10 witness. -/
def c10Env : AgentEnv :=
  ⟨fun _ => .ok none, fun _ _ => .ok [], fun _ => .ok ""⟩

/-- Witness for C10 at the tool name "frobnicate". -/
theorem execute_tool_unknown_name_witness :
    execute_tool c10Env c10Call =
      .ok (json_dumps true (Json.obj
        [("error", Json.str ("unknown tool \x27" ++ "frobnicate" ++ "\x27"))])) ∧
    toolMessages c10Env [c10Call] =
      .ok [⟨"tool",
        .str (json_dumps true (Json.obj
          [("error", Json.str ("unknown tool \x27" ++ "frobnicate" ++ "\x27"))])),
        [], c10Call.id, some "frobnicate"⟩] :=
  execute_tool_unknown_name c10Env c10Call ⟨some "frobnicate", none⟩ "frobnicate"
    rfl rfl (by decide) (by decide)

/-- Helper: lookup after a dict assignment. -/
theorem lookup_dictSet (d : Row) (k k2 v : String) :
    List.lookup k2 (dictSet d k v) = if k2 = k then some v else List.lookup k2 d := by
  induction d with
  | nil =>
      simp only [dictSet, List.lookup]
      by_cases h : k2 = k
      · simp [h]
      · simp [h, beq_eq_false_iff_ne.mpr h]
  | cons kv rest ih =>
      obtain ⟨k0, v0⟩ := kv
      by_cases hk : k0 = k
      · subst hk
        simp only [dictSet, if_pos rfl, List.lookup]
        by_cases h2 : k2 = k0
        · simp [h2]
        · simp [h2, beq_eq_false_iff_ne.mpr h2]
      · rw [dictSet, if_neg hk]
        simp only [List.lookup]
        by_cases h2 : k2 = k0
        · subst h2
          simp [if_neg (fun hc : k2 = k => hk hc)]
        · simp [beq_eq_false_iff_ne.mpr h2, ih]

/-- Helper: the merged output row's `site_type` and `notes` columns come
from the classification result. -/
theorem dictGet_mergeRow (row : Row) (mr : ModelResponse) (ps est cht : String) :
    dictGet (mergeRow row mr ps est cht) "site_type" "" = mr.site_type ∧
    dictGet (mergeRow row mr ps est cht) "notes" "" = mr.notes := by
  unfold mergeRow dictGet
  dsimp only
  constructor <;>
  · split
    · simp [lookup_dictSet]
      split <;> split <;> simp [lookup_dictSet]
    · split
      · split <;> split <;> simp [lookup_dictSet]
      · split <;> split <;> simp [lookup_dictSet]

/-- Helper: an inconclusive `site_type` of "unknown" always triggers the
expanded-search predicate. -/
theorem needs_expanded_unknown (r0 : ModelResponse) (h : r0.site_type = "unknown") :
    needs_expanded_search r0 = true := by
  unfold needs_expanded_search
  rw [h]
  rfl

/-- Helper: a non-empty, non-"unknown" `site_type` with notes free of the
insufficiency phrases does not trigger the expanded-search predicate. -/
theorem needs_expanded_clean (r0 : ModelResponse) (h : r0.site_type = "warehouse")
    (hclean : ∀ ph ∈ insufficiencyPhrases, strContains (pyLower (pyStrip r0.notes)) ph = false) :
    needs_expanded_search r0 = false := by
  unfold needs_expanded_search
  dsimp only
  rw [h]
  rw [if_neg (by decide)]
  rw [List.any_eq_false]
  intro ph hph
  simp [hclean ph hph]

/-- Helper: whatever the classification path returns, it is not a cache
reuse and it consulted the classification model at least once. -/
theorem classifyFresh_not_reused (cfg : RowConfig) (env : RowEnv)
    (company address : String) (row : Row) (cht : String) :
    ∀ out, classifyFresh cfg env company address row cht = .ok out →
      out.cache_reused = false ∧ 1 ≤ out.model_calls := by
  intro out h
  unfold classifyFresh at h
  dsimp only at h
  repeat'
    first
      | exact Except.noConfusion h
      | (injection h with h2; cases h2;
         exact ⟨rfl, by first | exact Nat.le_refl 1 | exact Nat.le_of_lt Nat.one_lt_two⟩)
      | split at h

/-- C5: a cached prior row whose normalized (company, address) key matches
the current row is reused verbatim — the output-header columns copied over
the input row with zero search, fetch, model and summarizer calls — if and
only if its stored category-suggestions signature equals the current run's
category-hint signature; on a mismatch the row goes through classification
instead (not reused, at least one model call). -/
theorem process_row_cache_reuse_iff (cfg : RowConfig) (env : RowEnv)
    (cached : List ((String × String) × Row)) (row hit : Row) (k : String × String)
    (hkey : cache_key (pyStrip (dictGet row COMPANY_COLUMN ""))
        (pyStrip (dictGet row ADDRESS_COLUMN "")) = some k)
    (hhit : List.lookup k cached = some hit) :
    (dictGet hit "category_suggestions" "" = format_category_signature cfg.category_hint_list →
       processRow cfg env cached row =
         .ok ⟨OUTPUT_EXTRA_HEADERS.foldl
            (fun m h => if dictHasKey hit h then dictSet m h (dictGet hit h "") else m) row,
            0, 0, 0, 0, 0, [], true⟩) ∧
    (dictGet hit "category_suggestions" "" ≠ format_category_signature cfg.category_hint_list →
       ∀ out, processRow cfg env cached row = .ok out →
         out.cache_reused = false ∧ 1 ≤ out.model_calls) := by
  have hred : processRow cfg env cached row =
      (if dictGet hit "category_suggestions" "" = format_category_signature cfg.category_hint_list
       then .ok ⟨OUTPUT_EXTRA_HEADERS.foldl
            (fun m h => if dictHasKey hit h then dictSet m h (dictGet hit h "") else m) row,
            0, 0, 0, 0, 0, [], true⟩
       else classifyFresh cfg env (pyStrip (dictGet row COMPANY_COLUMN ""))
            (pyStrip (dictGet row ADDRESS_COLUMN "")) row
            (format_category_signature cfg.category_hint_list)) := by
    unfold processRow
    dsimp only
    rw [hkey]
    dsimp only
    rw [hhit]
  constructor
  · intro hsig
    rw [hred, if_pos hsig]
  · intro hsig out hout
    rw [hred, if_neg hsig] at hout
    exact classifyFresh_not_reused cfg env _ _ row _ out hout

/-- Input row for the cache-reuse witness. -/
def c5Row : Row := [("Company Name", "Acme Co"), ("Full Address", "1 Main St")]

/-- Cached prior output row for the cache-reuse witness. -/
def c5Hit : Row :=
  [("Company Name", "Acme Co"), ("Full Address", "1 Main St"),
   ("site_type", "warehouse"), ("confidence", "high"), ("notes", "ok"),
   ("raw_model_output", "raw"), ("query_plan", "qp"), ("evidence_summary", "es"),
   ("category_suggestions", "A: desc")]

/-- Run configuration for the cache-reuse witness. -/
def c5Cfg : RowConfig := { category_hint_list := [⟨"A", "desc"⟩] }

/-- Oracle environment for the cache-reuse witness. -/
def c5Env : RowEnv :=
  ⟨⟨fun _ _ => [], fun _ => none, fun _ => some none⟩, fun _ => none, fun _ => none,
   fun _ _ => ⟨"warehouse", "high", "ok", "raw"⟩, id, id, id, id⟩

/-- Witness for C5: matching key and matching signature reuse the cached
row with zero calls of any kind. -/
theorem process_row_cache_reuse_iff_witness :
    processRow c5Cfg c5Env [(("acme co", "1 main st"), c5Hit)] c5Row =
      .ok ⟨OUTPUT_EXTRA_HEADERS.foldl
          (fun m h => if dictHasKey c5Hit h then dictSet m h (dictGet c5Hit h "") else m) c5Row,
          0, 0, 0, 0, 0, [], true⟩ :=
  (process_row_cache_reuse_iff c5Cfg c5Env [(("acme co", "1 main st"), c5Hit)] c5Row c5Hit
    ("acme co", "1 main st") rfl rfl).1 rfl

/-- Helper: with an empty cache the row loop always takes the
classification path. -/
theorem processRow_no_cache (cfg : RowConfig) (env : RowEnv) (row : Row) :
    processRow cfg env [] row =
      classifyFresh cfg env (pyStrip (dictGet row COMPANY_COLUMN ""))
        (pyStrip (dictGet row ADDRESS_COLUMN "")) row
        (format_category_signature cfg.category_hint_list) := by
  unfold processRow
  dsimp only
  cases hk : cache_key (pyStrip (dictGet row COMPANY_COLUMN ""))
      (pyStrip (dictGet row ADDRESS_COLUMN "")) with
  | none => rfl
  | some k => rfl

/-- Helper: the base research pipeline is never built in expanded-query
mode. -/
theorem rowBasePipeline_expanded (cfg : RowConfig) (bp : ResearchPipeline)
    (hbp : rowBasePipeline cfg = some bp) : bp.expanded_queries = false := by
  unfold rowBasePipeline at hbp
  split at hbp
  · injection hbp with h3
    rw [← h3]
    rfl
  · exact Option.noConfusion hbp

/-- Helper: with no overrides the expansion thresholds are exactly the
doubled base values (and query expansion is on). -/
theorem rowExpandedPipeline_defaults (cfg : RowConfig) (env : RowEnv)
    (hdef1 : cfg.expanded_search_results = none) (hdef2 : cfg.expanded_max_documents = none)
    (hmsr : 1 ≤ cfg.max_search_results) (hmd : 1 ≤ cfg.max_documents) :
    (rowExpandedPipeline cfg env).max_search_results = cfg.max_search_results * 2 ∧
    (rowExpandedPipeline cfg env).max_documents = cfg.max_documents * 2 ∧
    (rowExpandedPipeline cfg env).expanded_queries = true := by
  unfold rowExpandedPipeline rowExpandedThresholds mkResearchPipeline
  rw [hdef1, hdef2]
  dsimp only [Option.getD]
  refine ⟨?_, ?_, rfl⟩ <;> omega

/-- Helper: an inconclusive first verdict with the search stack available
performs exactly one expanded re-collection, with the expanded pipeline
configuration. -/
theorem classifyFresh_expands_once (cfg : RowConfig) (env : RowEnv)
    (company address : String) (row : Row) (cht : String) (r0 : ModelResponse)
    (hmodel : ∀ docs s, env.runModel docs s = r0)
    (hstack : cfg.stack_available = true)
    (hneed : needs_expanded_search r0 = true) :
    ∀ out, classifyFresh cfg env company address row cht = .ok out →
      out.expansion_collects = [rowExpandedPipeline cfg env] := by
  intro out h
  unfold classifyFresh at h
  dsimp only at h
  cases hbp : rowBasePipeline cfg with
  | some bp =>
      have hexpq := rowBasePipeline_expanded cfg bp hbp
      simp only [hbp, hmodel, hneed, hstack, hexpq, Bool.and_self, Bool.not_false,
        Bool.true_or, if_true] at h
      repeat'
        first
          | exact Except.noConfusion h
          | (injection h with h2; cases h2; rfl)
          | split at h
  | none =>
      simp only [hbp, hmodel, hneed, hstack, Bool.and_self, Bool.not_false,
        Bool.true_or, if_true] at h
      repeat'
        first
          | exact Except.noConfusion h
          | (injection h with h2; cases h2; rfl)
          | split at h

/-- Helper: a conclusive first verdict performs no expanded re-collection
and only the single classification call. -/
theorem classifyFresh_no_expand (cfg : RowConfig) (env : RowEnv)
    (company address : String) (row : Row) (cht : String) (r0 : ModelResponse)
    (hmodel : ∀ docs s, env.runModel docs s = r0)
    (hneed : needs_expanded_search r0 = false) :
    ∀ out, classifyFresh cfg env company address row cht = .ok out →
      out.expansion_collects = [] ∧ out.model_calls = 1 := by
  intro out h
  unfold classifyFresh at h
  dsimp only at h
  simp only [hmodel, hneed, Bool.false_and, Bool.false_eq_true, if_false] at h
  repeat'
    first
      | exact Except.noConfusion h
      | (injection h with h2; cases h2; exact ⟨rfl, rfl⟩)
      | split at h

/-- Helper: when the expanded re-collection returns no documents, the
classifier is not re-run and the first verdict's fields reach the output
row unchanged. -/
theorem classifyFresh_empty_expansion (cfg : RowConfig) (env : RowEnv)
    (company address : String) (row : Row) (cht : String) (r0 : ModelResponse)
    (hmodel : ∀ docs s, env.runModel docs s = r0)
    (hstack : cfg.stack_available = true)
    (hneed : needs_expanded_search r0 = true)
    (pl : QueryPlan) (nsc nfc : Nat)
    (hexp : collect_evidence env.renv (rowExpandedPipeline cfg env) company address
        env.searchOrderExp env.fetchOrderExp = .ok ([], pl, nsc, nfc)) :
    ∀ out, classifyFresh cfg env company address row cht = .ok out →
      out.model_calls = 1 ∧
      dictGet out.merged "site_type" "" = r0.site_type ∧
      dictGet out.merged "notes" "" = r0.notes := by
  intro out h
  unfold classifyFresh at h
  dsimp only at h
  rw [hexp] at h
  cases hbp : rowBasePipeline cfg with
  | some bp =>
      have hexpq := rowBasePipeline_expanded cfg bp hbp
      simp only [hbp, hmodel, hneed, hstack, hexpq, Bool.and_self, Bool.not_false,
        Bool.true_or, if_true, List.isEmpty_nil, Bool.not_true, Bool.false_eq_true,
        if_false] at h
      repeat'
        first
          | exact Except.noConfusion h
          | (injection h with h2; cases h2;
             exact ⟨rfl, (dictGet_mergeRow _ _ _ _ _).1, (dictGet_mergeRow _ _ _ _ _).2⟩)
          | split at h
  | none =>
      simp only [hbp, hmodel, hneed, hstack, Bool.and_self, Bool.not_false,
        Bool.true_or, if_true, List.isEmpty_nil, Bool.not_true, Bool.false_eq_true,
        if_false] at h
      repeat'
        first
          | exact Except.noConfusion h
          | (injection h with h2; cases h2;
             exact ⟨rfl, (dictGet_mergeRow _ _ _ _ _).1, (dictGet_mergeRow _ _ _ _ _).2⟩)
          | split at h

/-- C4 (amended): for a row with an empty cache, default expansion
overrides, and base thresholds of at least one: a first classification
with `site_type = "unknown"` while the search stack is available triggers
exactly one expanded re-collection whose thresholds are the doubled base
values (hence strictly larger) with query expansion enabled; a first
classification with `site_type = "warehouse"` whose notes contain none of
the insufficiency phrases triggers zero re-collections; and an expanded
re-collection that returns no documents leaves the original verdict
intact (the classifier is not re-run and the output row carries the first
result's fields). -/
theorem process_row_escalation (cfg : RowConfig) (env : RowEnv) (row : Row)
    (r0 : ModelResponse)
    (hmodel : ∀ docs s, env.runModel docs s = r0)
    (hstack : cfg.stack_available = true)
    (hdef1 : cfg.expanded_search_results = none)
    (hdef2 : cfg.expanded_max_documents = none)
    (hmsr : 1 ≤ cfg.max_search_results)
    (hmd : 1 ≤ cfg.max_documents) :
    ∀ out, processRow cfg env [] row = .ok out →
      (r0.site_type = "unknown" →
        out.expansion_collects = [rowExpandedPipeline cfg env] ∧
        (rowExpandedPipeline cfg env).max_search_results = cfg.max_search_results * 2 ∧
        (rowExpandedPipeline cfg env).max_documents = cfg.max_documents * 2 ∧
        cfg.max_search_results < (rowExpandedPipeline cfg env).max_search_results ∧
        cfg.max_documents < (rowExpandedPipeline cfg env).max_documents ∧
        (rowExpandedPipeline cfg env).expanded_queries = true) ∧
      (r0.site_type = "warehouse" →
        (∀ ph ∈ insufficiencyPhrases,
          strContains (pyLower (pyStrip r0.notes)) ph = false) →
        out.expansion_collects = [] ∧ out.model_calls = 1) ∧
      (r0.site_type = "unknown" →
        (∃ pl nsc nfc, collect_evidence env.renv (rowExpandedPipeline cfg env)
            (pyStrip (dictGet row COMPANY_COLUMN ""))
            (pyStrip (dictGet row ADDRESS_COLUMN ""))
            env.searchOrderExp env.fetchOrderExp = .ok ([], pl, nsc, nfc)) →
        out.model_calls = 1 ∧
        dictGet out.merged "site_type" "" = r0.site_type ∧
        dictGet out.merged "notes" "" = r0.notes) := by
  intro out h
  rw [processRow_no_cache] at h
  obtain ⟨ht1, ht2, ht3⟩ := rowExpandedPipeline_defaults cfg env hdef1 hdef2 hmsr hmd
  refine ⟨?_, ?_, ?_⟩
  · intro hsite
    refine ⟨classifyFresh_expands_once cfg env _ _ row _ r0 hmodel hstack
      (needs_expanded_unknown r0 hsite) out h, ht1, ht2, ?_, ?_, ht3⟩
    · omega
    · omega
  · intro hsite hclean
    exact classifyFresh_no_expand cfg env _ _ row _ r0 hmodel
      (needs_expanded_clean r0 hsite hclean) out h
  · intro hsite hexp
    obtain ⟨pl, nsc, nfc, hexp⟩ := hexp
    exact classifyFresh_empty_expansion cfg env _ _ row _ r0 hmodel hstack
      (needs_expanded_unknown r0 hsite) pl nsc nfc hexp out h

/-- Input row used by the escalation counterexample. -/
def c4Row : Row := [("Company Name", "Acme Co"), ("Full Address", "1 Main St")]

/-- Run configuration with an available search stack (agentic-style run
without the web-research pipeline). -/
def c4Cfg : RowConfig :=
  { enable_web_research := false, use_agentic_tools := true, stack_available := true }

/-- A "warehouse" verdict whose notes mention insufficient evidence. -/
def c4R0 : ModelResponse := ⟨"warehouse", "high", "insufficient evidence", "raw"⟩

/-- Oracle environment returning `c4R0` on every classification. -/
def c4Env : RowEnv :=
  ⟨⟨fun _ _ => [], fun _ => none, fun _ => some none⟩, fun _ => none, fun _ => none,
   fun _ _ => c4R0, id, id, id, id⟩

/-- C4 counterexample: a first classification with
`site_type = "warehouse"` does NOT always trigger zero re-collections —
when its notes contain an insufficiency phrase ("insufficient evidence"),
`_needs_expanded_search` fires and the row performs one expanded
re-collection. -/
theorem escalation_warehouse_counterexample :
    c4R0.site_type = "warehouse" ∧
    (processRow c4Cfg c4Env [] c4Row).map (fun o => o.expansion_collects.length) =
      .ok 1 := ⟨rfl, rfl⟩

/-- An "unknown" first verdict for the escalation witness. -/
def c4wR0 : ModelResponse := ⟨"unknown", "low", "", "raw"⟩

/-- Oracle environment returning `c4wR0` on every classification and no
search results. -/
def c4wEnv : RowEnv :=
  ⟨⟨fun _ _ => [], fun _ => none, fun _ => some none⟩, fun _ => none, fun _ => none,
   fun _ _ => c4wR0, id, id, id, id⟩

/-- The outcome the escalation witness row produces. -/
def c4wOut : RowOutcome :=
  ⟨mergeRow c4Row c4wR0 "" "" "", 3, 0, 1, 0, 0, [rowExpandedPipeline c4Cfg c4wEnv], false⟩

/-- Witness for C4's amended theorem: an "unknown" verdict expands once
with doubled thresholds, and the empty expansion leaves the verdict. -/
theorem process_row_escalation_witness :
    (c4wR0.site_type = "unknown" →
      c4wOut.expansion_collects = [rowExpandedPipeline c4Cfg c4wEnv] ∧
      (rowExpandedPipeline c4Cfg c4wEnv).max_search_results = c4Cfg.max_search_results * 2 ∧
      (rowExpandedPipeline c4Cfg c4wEnv).max_documents = c4Cfg.max_documents * 2 ∧
      c4Cfg.max_search_results < (rowExpandedPipeline c4Cfg c4wEnv).max_search_results ∧
      c4Cfg.max_documents < (rowExpandedPipeline c4Cfg c4wEnv).max_documents ∧
      (rowExpandedPipeline c4Cfg c4wEnv).expanded_queries = true) ∧
    (c4wR0.site_type = "warehouse" →
      (∀ ph ∈ insufficiencyPhrases,
        strContains (pyLower (pyStrip c4wR0.notes)) ph = false) →
      c4wOut.expansion_collects = [] ∧ c4wOut.model_calls = 1) ∧
    (c4wR0.site_type = "unknown" →
      (∃ pl nsc nfc, collect_evidence c4wEnv.renv (rowExpandedPipeline c4Cfg c4wEnv)
          (pyStrip (dictGet c4Row COMPANY_COLUMN ""))
          (pyStrip (dictGet c4Row ADDRESS_COLUMN ""))
          c4wEnv.searchOrderExp c4wEnv.fetchOrderExp = .ok ([], pl, nsc, nfc)) →
      c4wOut.model_calls = 1 ∧
      dictGet c4wOut.merged "site_type" "" = c4wR0.site_type ∧
      dictGet c4wOut.merged "notes" "" = c4wR0.notes) :=
  process_row_escalation c4Cfg c4wEnv c4Row c4wR0 (fun _ _ => rfl) rfl rfl rfl
    (by decide) (by decide) c4wOut rfl

end AddressSearch
